import Mathlib

/-!
# Verification of the Voice-Assistant conversation session engine

Shallow embedding of the session-orchestration logic of `backup/app.py`
(the most complete variant of the repository; all audited claims cite it).

Conventions of the embedding:
* Python `str` is Lean `String`; Python truthiness of a string is `s ≠ ""`,
  of an optional value `o.isSome` combined with the truthiness of its payload.
* The Python sets `_handled_email_ids` / `_announced_unread_ids` are
  `List String` manipulated with set semantics (`insertOnce` / `removeAll`).
* Network effects (Gmail REST, Microsoft Graph, websocket sends, TTS) carry
  no session state; the data they return is supplied by an explicit `Env`
  record.  Message fetches are modelled as `List.find?` over the mailbox held
  in `Env`, which mirrors the fact that the provider returns the message with
  the requested id.
* A Python exception escaping a tool method is modelled by an `Option`: the
  result component is `none` and the session component holds the state at the
  raise point.
-/

namespace VoiceAssistant

/-- Python truthiness of an optional string, as used by
`message_id or (self.current_email_context and ...)`: `None` and `""` are falsy. -/
def strTruthy : Option String → Bool
  | none => false
  | some s => s ≠ ""

/-- `set.add` on a list with set semantics (no duplicate insertion). -/
def insertOnce (x : String) (l : List String) : List String :=
  if x ∈ l then l else x :: l

/-- `set.discard` on a list with set semantics. -/
def removeAll (x : String) (l : List String) : List String :=
  l.filter (fun y => y ≠ x)

/-! ### Python string primitives

The embedding uses its own structural (kernel-reducible) implementations of
the Python string operations the source relies on; each is a direct model of
the corresponding `str` method on the ASCII data the engine handles. -/

/-- The whitespace stripped by Python `str.strip()`. -/
def isPySpace (c : Char) : Bool :=
  c = ' ' || c = '\t' || c = '\n' || c = '\r' || c = '\x0b' || c = '\x0c'

/-- `str.strip()` on a character list. -/
def pyStripChars (l : List Char) : List Char :=
  ((l.dropWhile isPySpace).reverse.dropWhile isPySpace).reverse

/-- `str.strip()`. -/
def pyStrip (s : String) : String :=
  String.mk (pyStripChars s.data)

/-- ASCII lowercasing of one character (model of `str.lower()` per char). -/
def lowerChar (c : Char) : Char :=
  if 'A' ≤ c && c ≤ 'Z' then Char.ofNat (c.toNat + 32) else c

/-- `str.lower()`. -/
def pyLower (s : String) : String :=
  String.mk (s.data.map lowerChar)

/-- Split `s` at the first occurrence of `pat`: the part before the match and
the part after it (`none` when `pat` does not occur; `pat` is non-empty in
every use). -/
def splitOnFirst (pat : List Char) : List Char → Option (List Char × List Char)
  | [] => none
  | c :: rest =>
    if pat.isPrefixOf (c :: rest) then some ([], (c :: rest).drop pat.length)
    else
      match splitOnFirst pat rest with
      | some (pre, post) => some (c :: pre, post)
      | none => none

theorem splitOnFirst_eq_append {pat : List Char} :
    ∀ {s pre post : List Char}, splitOnFirst pat s = some (pre, post) →
      s = pre ++ pat ++ post := by
  intro s
  induction s with
  | nil => intro pre post h; simp [splitOnFirst] at h
  | cons c rest ih =>
    intro pre post h
    rw [splitOnFirst] at h
    by_cases hp : pat.isPrefixOf (c :: rest)
    · rw [if_pos hp] at h
      obtain ⟨t, ht⟩ := (List.isPrefixOf_iff_prefix.mp hp)
      injection h with h'
      injection h' with h1 h2
      subst h1
      rw [← ht, List.drop_left] at h2
      subst h2
      simp [← ht]
    · rw [if_neg hp] at h
      cases hsp : splitOnFirst pat rest with
      | none => rw [hsp] at h; exact absurd h (by simp)
      | some pr =>
        rw [hsp] at h
        obtain ⟨p1, p2⟩ := pr
        injection h with h'
        injection h' with h1 h2
        subst h2
        have := ih hsp
        simp [← h1, this]

theorem splitOnFirst_post_lt {pat : List Char} (hpat : pat ≠ [])
    {s pre post : List Char} (h : splitOnFirst pat s = some (pre, post)) :
    post.length < s.length := by
  have he := splitOnFirst_eq_append h
  have hlen := congrArg List.length he
  simp [List.length_append] at hlen
  have hp : 0 < pat.length := List.length_pos.mpr hpat
  omega

/-- Worker of `pySplit` (fuel exceeds the number of separator occurrences). -/
def pySplitGo (sep : List Char) : Nat → List Char → List (List Char)
  | 0, s => [s]
  | fuel + 1, s =>
    match splitOnFirst sep s with
    | none => [s]
    | some (pre, post) => pre :: pySplitGo sep fuel post

/-- `str.split(sep)` with a non-empty separator. -/
def pySplit (s sep : String) : List String :=
  (pySplitGo sep.data (s.length + 1) s.data).map String.mk

/-- `str.startswith(p)`. -/
def pyStartsWith (s p : String) : Bool :=
  p.data.isPrefixOf s.data

/-- Python `pat in s` (substring containment, `pat` non-empty). -/
def containsSub (s pat : String) : Bool :=
  (splitOnFirst pat.data s.data).isSome

/-- A sender/recipient identity as produced by `_identity_from_header` /
`_identity_from_graph`: `{"name": ..., "email": ..., "display": ...}`. -/
structure Identity where
  name : String
  email : String
  display : String
deriving DecidableEq, Repr

/-- `_join_identity_displays` (app.py 189-201). -/
def joinIdentityDisplays (identities : List Identity) : String :=
  String.intercalate ", " ((identities.filterMap fun ident =>
    if ident.name ≠ "" && ident.email ≠ "" then
      some (ident.name ++ " <" ++ ident.email ++ ">")
    else if ident.email ≠ "" then some ident.email
    else if ident.display ≠ "" then some ident.display
    else none))

/-- The dict stored in `self.current_email_context`.  The gmail and outlook
loaders populate different subsets of keys; a key that a loader does not set
is the empty string here, matching `dict.get` falsiness. -/
structure EmailContext where
  id : String
  threadId : String
  fromDisplay : String
  fromName : String
  fromEmail : String
  subject : String
  messageIdHeader : String
  references : String
  replyToRecipients : List Identity
  replyToEmails : List String
  toRecipients : List Identity
  ccRecipients : List Identity
  toLine : String
  ccLine : String
  date : String
  replyToLine : String
  internetMessageId : String
  bodyPreview : String
deriving DecidableEq, Repr

/-- The dict stored in `self.current_event_context` (id / organizer / summary). -/
structure EventContext where
  id : String
  organizer : String
  summary : String
deriving DecidableEq, Repr

/-- The dict stored in `self.last_draft_google`; `toField` is the `"to"` key. -/
structure Draft where
  toField : String
  subject : String
  body : String
deriving DecidableEq, Repr

/-- A normalized entry of `self.recent_contacts` (the dict built by
`_merge_contact`; `service` is the provider string `'google'`/`'microsoft'`). -/
structure Contact where
  id : String
  name : String
  email : String
  display : String
  subject : String
  preview : String
  received : String
  service : String
deriving DecidableEq, Repr

/-- `self.account_identity` (`email` is stored lowercased by
`_ensure_account_identity`, but `_merge_contact` re-lowercases defensively). -/
structure AccountIdentity where
  email : String
  displayName : String
deriving DecidableEq, Repr

/-- The raw contact observation handed to `_merge_contact`: a dict whose call
sites use the keys below; a key absent from the dict is `""` here (both are
falsy under `dict.get(...) or ...`). -/
structure RawContact where
  id : String
  messageId : String
  name : String
  fromName : String
  fromDisplay : String
  email : String
  fromEmail : String
  display : String
  subject : String
  preview : String
  bodyPreview : String
  received : String
  date : String
  service : String
deriving DecidableEq, Repr

/-- The per-connection state of `ConversationManager` that the audited claims
range over (app.py 741-753).  `serviceType` is `'google'` or `'microsoft'`. -/
structure Session where
  serviceType : String
  lastDraftGoogle : Option Draft
  lastDraftMicrosoftId : Option String
  currentEmailContext : Option EmailContext
  currentEventContext : Option EventContext
  recentContacts : List Contact
  accountIdentity : AccountIdentity
  handledEmailIds : List String
  announcedUnreadIds : List String
deriving DecidableEq, Repr

/-- `ConversationManager.__init__` session fields. -/
def initialSession (serviceType : String) : Session :=
  { serviceType := serviceType
    lastDraftGoogle := none
    lastDraftMicrosoftId := none
    currentEmailContext := none
    currentEventContext := none
    recentContacts := []
    accountIdentity := { email := "", displayName := "" }
    handledEmailIds := []
    announcedUnreadIds := [] }

/-- `_remember_handled_email` (app.py 802-804). -/
def rememberHandledEmail (s : Session) (messageId : String) : Session :=
  if messageId ≠ "" then
    { s with handledEmailIds := insertOnce messageId s.handledEmailIds }
  else s

/-- `_is_handled_email` (app.py 806-807). -/
def isHandledEmail (s : Session) (messageId : String) : Bool :=
  messageId ≠ "" && messageId ∈ s.handledEmailIds

/-- `_forget_handled_email` (app.py 809-812). -/
def forgetHandledEmail (s : Session) (messageId : String) : Session :=
  if messageId ≠ "" then
    { s with
      handledEmailIds := removeAll messageId s.handledEmailIds
      announcedUnreadIds := removeAll messageId s.announcedUnreadIds }
  else s

/-- `clear_draft` (app.py 797-800): unconditionally drops both draft slots;
the websocket `draft_clear` notification carries no session state.  Note that
this function — the session's `cancel` operation, reached from the UI action
`cancel_draft` in `handle_ws_packet` — never reports an error. -/
def clearDraft (s : Session) : Session :=
  { s with lastDraftGoogle := none, lastDraftMicrosoftId := none }

/-- Python `a or b` on strings: first truthy (non-empty) operand. -/
def pyOr (a b : String) : String :=
  if a ≠ "" then a else b

/-- The `normalized` dict built at the top of `_merge_contact` (app.py
1035-1054), including the name/display fallback chains. -/
def normalizeContact (serviceType : String) (c : RawContact) : Contact :=
  let name0 := pyStrip (pyOr c.name (pyOr c.fromName c.fromDisplay))
  let email := pyStrip (pyOr c.email c.fromEmail)
  let name1 := if name0 = "" && email ≠ "" then (pySplit email "@").headD "" else name0
  let display0 := pyStrip (pyOr c.display c.fromDisplay)
  let display :=
    if display0 = "" then
      if name1 ≠ "" && email ≠ "" then name1 ++ " <" ++ email ++ ">"
      else pyOr name1 (pyOr email "Unknown Sender")
    else display0
  { id := pyOr c.id c.messageId
    name := pyOr name1 (pyOr display "Unknown Sender")
    email := email
    display := display
    subject := c.subject
    preview := pyStrip (pyOr c.preview c.bodyPreview)
    received := pyOr c.received c.date
    service := pyOr c.service serviceType }

/-- `for k, v in normalized.items(): if v: existing[k] = v` — per-field
last-write-wins overwrite, skipping falsy (empty) values. -/
def overwriteContact (e n : Contact) : Contact :=
  { id := pyOr n.id e.id
    name := pyOr n.name e.name
    email := pyOr n.email e.email
    display := pyOr n.display e.display
    subject := pyOr n.subject e.subject
    preview := pyOr n.preview e.preview
    received := pyOr n.received e.received
    service := pyOr n.service e.service }

/-- Whether the `for existing in self.recent_contacts` loop body matches
`existing` (app.py 1069 and 1075): by lowercased email when the incoming key
is an email, otherwise by lowercased name. -/
def contactKeyMatches (keyEmail keyName : Option String) (e : Contact) : Bool :=
  match keyEmail with
  | some ke => pyLower e.email = ke
  | none =>
    match keyName with
    | some kn => pyLower e.name = kn
    | none => false

/-- The merge loop of `_merge_contact` (app.py 1065-1080): update the first
entry with a matching key in place and stop; `none` when no entry matches. -/
def mergeLoop (keyEmail keyName : Option String) (n : Contact) :
    List Contact → Option (List Contact)
  | [] => none
  | e :: rest =>
    if contactKeyMatches keyEmail keyName e then some (overwriteContact e n :: rest)
    else (mergeLoop keyEmail keyName n rest).map (e :: ·)

/-- `key_email = normalized["email"].lower() if normalized["email"] else None`. -/
def mergeKeyEmail (n : Contact) : Option String :=
  if n.email ≠ "" then some (pyLower n.email) else none

/-- `key_name = normalized["name"].lower() if normalized["name"] else None`. -/
def mergeKeyName (n : Contact) : Option String :=
  if n.name ≠ "" then some (pyLower n.name) else none

/-- First owner guard (app.py 1058-1059): `if key_email and account_email and
key_email == account_email: return`. -/
def ownerGuardEmail (accountEmail : String) (keyEmail : Option String) : Bool :=
  match keyEmail with
  | some ke => accountEmail ≠ "" && ke = accountEmail
  | none => false

/-- Second owner guard (app.py 1060-1062): `if not key_email and key_name and
account_name and key_name == account_name: return`. -/
def ownerGuardName (accountName : String) (keyEmail keyName : Option String) : Bool :=
  keyEmail = none &&
  (match keyName with
   | some kn => accountName ≠ "" && kn = accountName
   | none => false)

/-- `_merge_contact` (app.py 1032-1083).  The leading `if not contact: return`
guard tests dict emptiness; every call site passes a non-empty literal dict,
so it is not represented.  Both owner guards, the in-place merge loop, the
front insertion and the `[:15]` cap are translated verbatim. -/
def mergeContact (s : Session) (c : RawContact) : Session :=
  let n := normalizeContact s.serviceType c
  let keyEmail := mergeKeyEmail n
  let keyName := mergeKeyName n
  let accountEmail := pyLower s.accountIdentity.email
  let accountName := pyLower s.accountIdentity.displayName
  if ownerGuardEmail accountEmail keyEmail then s
  else if ownerGuardName accountName keyEmail keyName then s
  else
    let l :=
      match mergeLoop keyEmail keyName n s.recentContacts with
      | some l' => l'
      | none => n :: s.recentContacts
    { s with recentContacts := l.take 15 }

/-- Model of `email.utils.parseaddr` for the address forms the engine meets:
`"Name <addr>"` yields the name part and the bracketed address, a bare
string yields an empty name and the trimmed string as the address. -/
def parseAddr (v : String) : String × String :=
  match pySplit v "<" with
  | [] => ("", pyStrip v)
  | [_] => ("", pyStrip v)
  | pre :: rest =>
    (pre, (pySplit (String.intercalate "<" rest) ">").headD "")

/-- `_identity_from_header` (app.py 139-149). -/
def identityFromHeader (value : Option String) : Identity :=
  let v := value.getD ""
  let p := parseAddr v
  let name := pyStrip p.1
  let email := pyStrip p.2
  let display :=
    if name ≠ "" && email ≠ "" then name ++ " <" ++ email ++ ">"
    else if email ≠ "" then email
    else name
  { name := name, email := email, display := pyOr display (pyStrip v) }

/-- `_identities_from_header` (app.py 151-167); `getaddresses` is modelled as
a comma split followed by `parseaddr` on each part. -/
def identitiesFromHeader (value : Option String) : List Identity :=
  match value with
  | none => []
  | some v =>
    if v = "" then []
    else
      (pySplit v ",").filterMap fun part =>
        let p := parseAddr part
        let name := pyStrip p.1
        let email := pyStrip p.2
        if name = "" && email = "" then none
        else
          let display :=
            if name ≠ "" && email ≠ "" then name ++ " <" ++ email ++ ">"
            else if email ≠ "" then email
            else name
          some { name := name, email := email, display := display }

/-- `_identity_from_graph` (app.py 169-179); the argument is the
`emailAddress` object's `name`/`address` pair, `""` when absent. -/
def identityFromGraph (name0 address0 : String) : Identity :=
  let name := pyStrip name0
  let email := pyStrip address0
  let display :=
    if name ≠ "" && email ≠ "" then name ++ " <" ++ email ++ ">"
    else if email ≠ "" then email
    else name
  { name := name, email := email, display := display }

/-- `_identities_from_graph` (app.py 181-187). -/
def identitiesFromGraph (entries : List (String × String)) : List Identity :=
  entries.filterMap fun e =>
    let identity := identityFromGraph e.1 e.2
    if identity.name ≠ "" || identity.email ≠ "" || identity.display ≠ "" then
      some identity
    else none

/-- Lookup in the dict built by `_parse_headers` (app.py 1158-1159): header
names are lowercased and, as in a Python dict comprehension, a later
occurrence of the same name wins. -/
def headerGet (headers : List (String × String)) (k : String) : Option String :=
  ((headers.map fun p => (pyLower p.1, p.2)).reverse.find? fun p => p.1 = k).map
    fun p => p.2

/-- A Gmail message as the engine consumes it: `headers` is the raw header
list of the full payload, `body` stands for `_get_email_body(msg)` (the MIME
walk is provider-side decoding, not session logic) and `snippet` for
`msg.get('snippet', '')`. -/
structure GmailMsg where
  id : String
  threadId : String
  headers : List (String × String)
  body : String
  snippet : String
deriving DecidableEq, Repr

/-- An Outlook message as returned by Microsoft Graph; recipient lists are
`(name, address)` pairs of the `emailAddress` objects, `""` for absent keys. -/
structure OutlookMsg where
  id : String
  subject : String
  fromName : String
  fromEmail : String
  bodyPreview : String
  body : String
  toRecipients : List (String × String)
  ccRecipients : List (String × String)
  replyTo : List (String × String)
  sentDateTime : String
  receivedDateTime : String
  internetMessageId : String
  isRead : Bool
deriving DecidableEq, Repr

/-- A draft object returned by Graph (`createReply` response or the fallback
drafts listing): `id = ""` models a response without an `"id"` key. -/
structure OutlookDraftInfo where
  id : String
  subject : String
  toAddrs : List String
deriving DecidableEq, Repr

/-- The deterministic external world of one session: mailbox contents and the
outcomes of the provider calls.  A `none` in an `Option`-typed field means the
corresponding remote call raises. -/
structure Env where
  /-- Mailbox behind `users().messages().get` — fetched by id. -/
  gmailMessages : List GmailMsg
  /-- `users().messages().list(...)` response ids for a normalized query. -/
  gmailListIds : String → List String
  /-- `users().getProfile` result used by `gmail_send_draft`. -/
  gmailProfileEmail : String
  /-- Whether the Gmail profile fetch and send succeed. -/
  gmailSendOk : Bool
  /-- Mailbox behind `GET /me/messages/{id}`. -/
  outlookMessages : List OutlookMsg
  /-- `GET /me/mailFolders('Inbox')/messages` response for the search call. -/
  outlookListMsgs : List OutlookMsg
  /-- Account profile lookup of `_ensure_account_identity`
  (`email`, `display_name` before lowercasing); `none` = the lookup raised. -/
  accountIdentityResult : Option AccountIdentity
  /-- `POST /me/messages` response id for `outlook_draft_new_email`; outer
  `none` = the request raised, inner `none` = response without an id. -/
  outlookCreateDraft : Option (Option String)
  /-- `POST .../createReply` response; `none` = the request raised. -/
  outlookCreateReply : Option OutlookDraftInfo
  /-- Fallback drafts listing in `outlook_draft_reply`; `none` = raised. -/
  outlookDraftList : Option (List OutlookDraftInfo)
  /-- Whether `POST .../send` succeeds in `outlook_send_draft`. -/
  outlookSendOk : Bool

/-- `users().messages().get(userId='me', id=...)`: the provider returns the
message with the requested id. -/
def fetchGmail (env : Env) (messageId : String) : Option GmailMsg :=
  env.gmailMessages.find? fun m => m.id = messageId

/-- `GET /me/messages/{message_id}`: the message with the requested id. -/
def fetchOutlook (env : Env) (messageId : String) : Option OutlookMsg :=
  env.outlookMessages.find? fun m => m.id = messageId

/-- `_ensure_account_identity` (app.py 1088-1107): resolved lazily once; the
fetched email is lowercased; a failed lookup resets the identity to empty. -/
def ensureAccountIdentity (env : Env) (s : Session) : Session :=
  if s.accountIdentity.email ≠ "" then s
  else
    match env.accountIdentityResult with
    | some ident =>
      { s with accountIdentity :=
          { email := pyLower ident.email, displayName := ident.displayName } }
    | none => { s with accountIdentity := { email := "", displayName := "" } }

/-- `target_id = message_id or (self.current_email_context and
self.current_email_context.get('id'))` — explicit id wins when truthy,
otherwise the focused email's id (if any). -/
def resolveTargetId (mid : Option String) (ctx : Option EmailContext) : Option String :=
  if strTruthy mid then mid else ctx.map fun c => c.id

/-- A `RawContact` with every key absent. -/
def emptyRaw : RawContact :=
  { id := "", messageId := "", name := "", fromName := "", fromDisplay := ""
    email := "", fromEmail := "", display := "", subject := "", preview := ""
    bodyPreview := "", received := "", date := "", service := "" }

/-- `gmail_mark_as_read` (app.py 1327-1334).  The nested
`_gmail_context_action` call receives the (truthy) target id explicitly with
`clear_ctx=False`, so it performs the remote label modification — no session
effect — and returns the success message without touching any context. -/
def gmailMarkAsRead (s : Session) (mid : Option String) : Session × Option String :=
  match resolveTargetId mid s.currentEmailContext with
  | none => (s, some "Error: No message ID.")
  | some t =>
    if t = "" then (s, some "Error: No message ID.")
    else
      let s1 := rememberHandledEmail s t
      let s2 := { s1 with announcedUnreadIds := removeAll t s1.announcedUnreadIds }
      (s2, some "Email marked as read.")

/-- `gmail_mark_as_unread` (app.py 1336-1343); same structure, forgetting the
id instead of remembering it. -/
def gmailMarkAsUnread (s : Session) (mid : Option String) : Session × Option String :=
  match resolveTargetId mid s.currentEmailContext with
  | none => (s, some "Error: No message ID.")
  | some t =>
    if t = "" then (s, some "Error: No message ID.")
    else
      let s1 := forgetHandledEmail s t
      let s2 := { s1 with announcedUnreadIds := removeAll t s1.announcedUnreadIds }
      (s2, some "Email marked as unread.")

/-- `outlook_mark_as_read` (app.py 1539-1546); the Graph PATCH carries no
session state. -/
def outlookMarkAsRead (s : Session) (mid : Option String) : Session × Option String :=
  match resolveTargetId mid s.currentEmailContext with
  | none => (s, some "Error: No message ID.")
  | some t =>
    if t = "" then (s, some "Error: No message ID.")
    else
      let s1 := rememberHandledEmail s t
      let s2 := { s1 with announcedUnreadIds := removeAll t s1.announcedUnreadIds }
      (s2, some "Email marked as read.")

/-- `outlook_mark_as_unread` (app.py 1548-1555). -/
def outlookMarkAsUnread (s : Session) (mid : Option String) : Session × Option String :=
  match resolveTargetId mid s.currentEmailContext with
  | none => (s, some "Error: No message ID.")
  | some t =>
    if t = "" then (s, some "Error: No message ID.")
    else
      let s1 := forgetHandledEmail s t
      let s2 := { s1 with announcedUnreadIds := removeAll t s1.announcedUnreadIds }
      (s2, some "Email marked as unread.")

/-- The `context` dict and body text built by `_load_gmail_email_into_context`
(app.py 886-911) from the fetched message. -/
def gmailContextOfMsg (m : GmailMsg) : EmailContext × String :=
  let sender := identityFromHeader (headerGet m.headers "from")
  let replyToList0 := identitiesFromHeader (headerGet m.headers "reply-to")
  let replyToList :=
    if replyToList0 = [] then
      if sender.email ≠ "" || sender.name ≠ "" then [sender] else []
    else replyToList0
  let toRecipients := identitiesFromHeader (headerGet m.headers "to")
  let ccRecipients := identitiesFromHeader (headerGet m.headers "cc")
  let replyToEmails := replyToList.filterMap fun i =>
    if i.email ≠ "" then some i.email else none
  let bodyText := m.body
  (⟨m.id, m.threadId,
    pyOr sender.display ((headerGet m.headers "from").getD ""),
    sender.name, sender.email,
    (headerGet m.headers "subject").getD "",
    (headerGet m.headers "message-id").getD "",
    (headerGet m.headers "references").getD "",
    replyToList, replyToEmails, toRecipients, ccRecipients,
    joinIdentityDisplays toRecipients, joinIdentityDisplays ccRecipients,
    (headerGet m.headers "date").getD "",
    joinIdentityDisplays replyToList,
    "",
    bodyText.take 1000⟩, bodyText)

/-- `_load_gmail_email_into_context` (app.py 884-932): fetch, set the email
focus, clear the event focus, resolve the account identity, merge the sender
into the contacts and optionally mark the message read.  A failed fetch raises
before any mutation (`none` result, session unchanged). -/
def loadGmailEmailIntoContext (env : Env) (s : Session) (messageId : String)
    (markRead : Bool) : Session × Option (EmailContext × String) :=
  match fetchGmail env messageId with
  | none => (s, none)
  | some m =>
    let cb := gmailContextOfMsg m
    let context := cb.1
    let bodyText := cb.2
    let s1 := { s with currentEmailContext := some context, currentEventContext := none }
    let s2 := ensureAccountIdentity env s1
    let s3 := mergeContact s2
      { emptyRaw with
          id := context.id, name := context.fromName, email := context.fromEmail
          display := context.fromDisplay, subject := context.subject
          received := context.date, preview := bodyText.take 200
          service := s.serviceType }
    let s4 :=
      if markRead && !(isHandledEmail s3 context.id) then
        (gmailMarkAsRead s3 (some context.id)).1
      else s3
    (s4, some (context, bodyText))

/-- The `context` dict and body text built by
`_load_outlook_email_into_context` (app.py 944-968). -/
def outlookContextOfMsg (m : OutlookMsg) : EmailContext × String :=
  let sender := identityFromGraph m.fromName m.fromEmail
  let replyToList0 := identitiesFromGraph m.replyTo
  let replyToList :=
    if replyToList0 = [] then
      if sender.email ≠ "" || sender.name ≠ "" then [sender] else []
    else replyToList0
  let toRecipients := identitiesFromGraph m.toRecipients
  let ccRecipients := identitiesFromGraph m.ccRecipients
  let replyToEmails := replyToList.filterMap fun i =>
    if i.email ≠ "" then some i.email else none
  let received := pyOr m.receivedDateTime m.sentDateTime
  let bodyText := pyOr m.body m.bodyPreview
  (⟨m.id, "",
    pyOr sender.display (pyOr sender.email sender.name),
    sender.name, sender.email,
    m.subject, "", "",
    replyToList, replyToEmails, toRecipients, ccRecipients,
    joinIdentityDisplays toRecipients, joinIdentityDisplays ccRecipients,
    received,
    joinIdentityDisplays replyToList,
    m.internetMessageId,
    bodyText.take 1000⟩, bodyText)

/-- `_load_outlook_email_into_context` (app.py 934-989). -/
def loadOutlookEmailIntoContext (env : Env) (s : Session) (messageId : String)
    (markRead : Bool) : Session × Option (EmailContext × String) :=
  match fetchOutlook env messageId with
  | none => (s, none)
  | some m =>
    let cb := outlookContextOfMsg m
    let context := cb.1
    let bodyText := cb.2
    let s1 := { s with currentEmailContext := some context, currentEventContext := none }
    let s2 := ensureAccountIdentity env s1
    let s3 := mergeContact s2
      { emptyRaw with
          id := context.id, name := context.fromName, email := context.fromEmail
          display := context.fromDisplay, subject := context.subject
          received := context.date, preview := bodyText.take 200
          service := s.serviceType }
    let s4 :=
      if markRead && !(isHandledEmail s3 context.id) then
        (outlookMarkAsRead s3 (some context.id)).1
      else s3
    (s4, some (context, bodyText))

/-- `_ensure_email_context` (app.py 991-1030): keep a matching focused email
(optionally marking it read), otherwise resolve a target id — the explicit id
when truthy, else the most recent not-yet-handled contact of this provider,
else any contact of this provider with an id — and load it; `False` when no
target exists or the load raises. -/
def ensureEmailContext (env : Env) (s : Session) (mid : Option String)
    (markRead : Bool) : Session × Bool :=
  let keepCurrent :=
    match s.currentEmailContext with
    | some ctx =>
      !(strTruthy mid) || (match mid with | some m => ctx.id = m | none => false)
    | none => false
  if keepCurrent then
    match s.currentEmailContext with
    | some ctx =>
      let s' :=
        if markRead && !(isHandledEmail s ctx.id) then
          if s.serviceType = "google" then (gmailMarkAsRead s (some ctx.id)).1
          else (outlookMarkAsRead s (some ctx.id)).1
        else s
      (s', true)
    | none => (s, false)
  else
    let target : Option String :=
      if strTruthy mid then mid
      else
        match s.recentContacts.find? fun c =>
            c.service = s.serviceType && c.id ≠ "" && !(isHandledEmail s c.id) with
        | some c => some c.id
        | none =>
          (s.recentContacts.find? fun c =>
            c.service = s.serviceType && c.id ≠ "").map fun c => c.id
    match target with
    | none => (s, false)
    | some t =>
      let res :=
        if s.serviceType = "google" then loadGmailEmailIntoContext env s t markRead
        else loadOutlookEmailIntoContext env s t markRead
      match res.2 with
      | none => (res.1, false)
      | some _ => (res.1, true)

/-- The accumulator pass of `_split_recipients` (app.py 630-638): split on
commas, trim, drop empties and case-insensitive duplicates, keep order. -/
def splitRecipientsGo : List String → List String → List String
  | [], _ => []
  | a :: rest, seen =>
    if a ≠ "" && pyLower a ∉ seen then
      a :: splitRecipientsGo rest (pyLower a :: seen)
    else splitRecipientsGo rest seen

/-- `_split_recipients` (app.py 630-638). -/
def splitRecipients (toArg : String) : List String :=
  splitRecipientsGo ((pySplit toArg ",").map pyStrip) []

/-- `gmail_draft_new_email` (app.py 1259-1265): clears the email focus, then
stores the new draft — silently replacing any previous one. -/
def gmailDraftNewEmail (s : Session) (toArg subject body : String) :
    Session × Option String :=
  let s1 := { s with currentEmailContext := none }
  let recipients := splitRecipients toArg
  let d : Draft := ⟨String.intercalate ", " recipients, subject, body⟩
  let s2 := { s1 with lastDraftGoogle := some d }
  (s2, some "Draft created. Ask user to confirm.")

/-- `gmail_draft_reply` (app.py 1267-1284): resolve an email context (loading
one if needed), re-prefix the subject, address the reply-to recipients (or the
sender) and store the draft.  The `none` result models the `AttributeError`
that would occur if the context were absent after a successful
`_ensure_email_context`; that branch is unreachable. -/
def gmailDraftReply (env : Env) (s : Session) (body : String) :
    Session × Option String :=
  let er := ensureEmailContext env s none true
  let s1 := er.1
  if !er.2 then (s1, some "Error: No email context to reply to.")
  else
    match s1.currentEmailContext with
    | none => (s1, none)
    | some ctx =>
      let subject :=
        if !(pyStartsWith (pyLower ctx.subject) "re:") then "Re: " ++ ctx.subject
        else ctx.subject
      let replyToRecipients :=
        if ctx.replyToRecipients = [] then
          [{ name := ctx.fromName, email := ctx.fromEmail, display := ctx.fromDisplay }]
        else ctx.replyToRecipients
      let toField := pyOr (joinIdentityDisplays replyToRecipients) ctx.fromDisplay
      let s2 := { s1 with lastDraftGoogle := some ⟨toField, subject, body⟩ }
      (s2, some "Reply draft created.")

/-- `gmail_send_draft` (app.py 1286-1309): fails with "No draft to send" when
no draft is pending; otherwise builds and sends the message (threading headers
and profile fetch have no session effect; a raise leaves the session as it
was), marks the focused message read when one exists, clears the draft and the
email focus. -/
def gmailSendDraft (env : Env) (s : Session) : Session × Option String :=
  match s.lastDraftGoogle with
  | none => (s, some "Error: No draft to send.")
  | some _ =>
    if !env.gmailSendOk then (s, none)
    else
      let s1 :=
        match s.currentEmailContext with
        | some ctx => (gmailMarkAsRead s (some ctx.id)).1
        | none => s
      let s2 := clearDraft s1
      let s3 := { s2 with currentEmailContext := none }
      (s3, some "Email sent.")

/-- `outlook_draft_new_email` (app.py 1455-1467): the email focus is cleared
before the Graph POST, so a raising POST (`env.outlookCreateDraft = none`)
leaves the focus cleared but the previous draft id in place. -/
def outlookDraftNewEmail (env : Env) (s : Session) (_to _subject _body : String) :
    Session × Option String :=
  let s1 := { s with currentEmailContext := none }
  match env.outlookCreateDraft with
  | none => (s1, none)
  | some idOpt =>
    ({ s1 with lastDraftMicrosoftId := idOpt }, some "Draft created. Ask user to confirm.")

/-- The `draft_id` selection of `outlook_draft_reply` (app.py 1475-1489): the
`createReply` response id when present, otherwise the first `re:`/`fw:` draft
from the fallback drafts listing (a raising listing is swallowed). -/
def outlookSelectReplyDraftId (env : Env) (draft : OutlookDraftInfo) : Option String :=
  match (if draft.id ≠ "" then some draft.id else none : Option String) with
  | some i => some i
  | none =>
    match env.outlookDraftList with
    | none => none
    | some l =>
      match l.find? fun m =>
          pyStartsWith (pyLower m.subject) "re:" ||
          pyStartsWith (pyLower m.subject) "fw:" with
      | some m => if m.id ≠ "" then some m.id else none
      | none => none

/-- `outlook_draft_reply` (app.py 1469-1495): resolve an email context, ask
Graph to create the reply draft, and if the response carries no id fall back
to scanning the drafts folder for a `re:`/`fw:` subject; without an id the
call reports failure, otherwise the draft id replaces any previous one. -/
def outlookDraftReply (env : Env) (s : Session) (_body : String) :
    Session × Option String :=
  let er := ensureEmailContext env s none true
  let s1 := er.1
  if !er.2 then (s1, some "Error: No email context to reply to.")
  else
    match s1.currentEmailContext with
    | none => (s1, none)
    | some _ =>
      match env.outlookCreateReply with
      | none => (s1, none)
      | some draft =>
        match outlookSelectReplyDraftId env draft with
        | none => (s1, some "Error: Could not create a reply draft.")
        | some i =>
          ({ s1 with lastDraftMicrosoftId := some i }, some "Reply draft created.")

/-- `outlook_send_draft` (app.py 1497-1513): fails with "No draft to send."
when the draft id is falsy; a failing Graph send is caught and reported;
otherwise the draft is cleared, the focused message (if any, and not yet
handled) is marked read, and the email focus is cleared. -/
def outlookSendDraft (env : Env) (s : Session) : Session × Option String :=
  let hasDraft :=
    match s.lastDraftMicrosoftId with
    | none => false
    | some i => i ≠ ""
  if !hasDraft then (s, some "Error: No draft to send.")
  else if !env.outlookSendOk then (s, some "Error: Could not send the draft.")
  else
    let handledId := s.currentEmailContext.map fun c => c.id
    let s1 := clearDraft s
    let s2 :=
      match handledId with
      | some h =>
        if h ≠ "" && !(isHandledEmail s1 h) then (outlookMarkAsRead s1 (some h)).1
        else s1
      | none => s1
    let s3 := { s2 with currentEmailContext := none }
    (s3, some "Email sent.")

/-- The query rewriting at the top of `gmail_search_emails` (app.py
1165-1169): inject `in:inbox` and `is:unread` unless the query already
carries folder / read-state qualifiers. -/
def normalizeGmailQuery (query : String) : String :=
  let nq := pyStrip query
  let nq :=
    if !(containsSub (pyLower nq) "in:") then pyStrip ("in:inbox " ++ nq) else nq
  if !(containsSub (pyLower nq) "is:") && !(containsSub (pyLower nq) "label:") then
    pyStrip (nq ++ " is:unread")
  else nq

/-- An element of the `email_list` a search returns (and feeds to
`_merge_contact` when publishing); the dict keys are
`id/from/from_name/from_email/subject/received/body_preview/service`. -/
structure SearchItem where
  id : String
  fromDisplay : String
  fromName : String
  fromEmail : String
  subject : String
  received : String
  bodyPreview : String
  service : String
deriving DecidableEq, Repr

/-- The search-result dict viewed as a `_merge_contact` observation. -/
def rawOfSearchItem (it : SearchItem) : RawContact :=
  { emptyRaw with
      id := it.id, fromDisplay := it.fromDisplay, fromName := it.fromName
      fromEmail := it.fromEmail, subject := it.subject, received := it.received
      bodyPreview := it.bodyPreview, service := it.service }

/-- The `contact` dict built for one Gmail search hit (app.py 1182-1195);
`listId` is the id from the listing response (`msg['id']`). -/
def gmailItemOfMsg (serviceType listId : String) (m : GmailMsg) : SearchItem :=
  let sender := identityFromHeader (headerGet m.headers "from")
  { id := listId
    fromDisplay := pyOr sender.display (pyOr ((headerGet m.headers "from").getD "...") "...")
    fromName := sender.name
    fromEmail := sender.email
    subject := (headerGet m.headers "subject").getD "(No Subject)"
    received := (headerGet m.headers "date").getD ""
    bodyPreview := (pyOr m.body m.snippet).take 200
    service := serviceType }

/-- The result loop of `gmail_search_emails` (app.py 1179-1200): skip handled
ids, fetch the full message (a failed fetch raises: `none`), merge the contact
when publishing, and stop once `max_results` items are collected. -/
def gmailSearchGo (env : Env) (publish : Bool) (maxResults : Nat) :
    List String → Session → List SearchItem → Session × Option (List SearchItem)
  | [], s, acc => (s, some acc)
  | listId :: rest, s, acc =>
    if isHandledEmail s listId then gmailSearchGo env publish maxResults rest s acc
    else
      match fetchGmail env listId with
      | none => (s, none)
      | some m =>
        let it := gmailItemOfMsg s.serviceType listId m
        let s' := if publish then mergeContact s (rawOfSearchItem it) else s
        let acc' := acc ++ [it]
        if maxResults ≤ acc'.length then (s', some acc')
        else gmailSearchGo env publish maxResults rest s' acc'

/-- `gmail_search_emails` (app.py 1161-1205).  The returned list stands for
the JSON payload; the empty list corresponds to the "No emails found" reply. -/
def gmailSearchEmails (env : Env) (s : Session) (query : String)
    (maxResults : Nat) (publish : Bool) : Session × Option (List SearchItem) :=
  let s0 := if publish then ensureAccountIdentity env s else s
  gmailSearchGo env publish maxResults (env.gmailListIds (normalizeGmailQuery query)) s0 []

/-- The `contact` dict built for one Outlook search hit (app.py 1373-1389). -/
def outlookItemOfMsg (serviceType : String) (m : OutlookMsg) : SearchItem :=
  let senderName := pyStrip m.fromName
  let senderEmail := pyStrip m.fromEmail
  let senderDisplay :=
    if senderName ≠ "" && senderEmail ≠ "" then senderName ++ " <" ++ senderEmail ++ ">"
    else pyOr senderName (pyOr senderEmail "...")
  { id := m.id
    fromDisplay := senderDisplay
    fromName := senderName
    fromEmail := senderEmail
    subject := pyOr m.subject "(No Subject)"
    received := m.receivedDateTime
    bodyPreview := m.bodyPreview.take 200
    service := serviceType }

/-- The result loop of `outlook_search_emails` (app.py 1368-1394): skip read
messages and handled ids, merge the contact when publishing, stop at
`max_results`. -/
def outlookSearchGo (publish : Bool) (maxResults : Nat) :
    List OutlookMsg → Session → List SearchItem → Session × List SearchItem
  | [], s, acc => (s, acc)
  | m :: rest, s, acc =>
    if m.isRead then outlookSearchGo publish maxResults rest s acc
    else if isHandledEmail s m.id then outlookSearchGo publish maxResults rest s acc
    else
      let it := outlookItemOfMsg s.serviceType m
      let s' := if publish then mergeContact s (rawOfSearchItem it) else s
      let acc' := acc ++ [it]
      if maxResults ≤ acc'.length then (s', acc')
      else outlookSearchGo publish maxResults rest s' acc'

/-- `outlook_search_emails` (app.py 1346-1399); `env.outlookListMsgs` is the
Graph listing response of whichever of the two query branches ran. -/
def outlookSearchEmails (env : Env) (s : Session) (_query : String)
    (maxResults : Nat) (publish : Bool) : Session × List SearchItem :=
  let s0 := if publish then ensureAccountIdentity env s else s
  outlookSearchGo publish maxResults env.outlookListMsgs s0 []

/-! ## The suggestion micro-format (`_extract_suggestions`, app.py 118-137)

`SUGGESTION_BLOCK_RE = re.compile(r"<suggestions>(.*?)</suggestions>", re.DOTALL)`.
`findall`/`sub` with this lazy pattern scan left to right: each match starts at
the first remaining `<suggestions>` and ends at the first `</suggestions>`
after it; `sub` deletes exactly the matched spans.  `scanBlocks` below computes
both the captured groups and the surviving text in one pass. -/

/-- `"<suggestions>"` as a character list. -/
def openTag : List Char := "<suggestions>".data

/-- `"</suggestions>"` as a character list. -/
def closeTag : List Char := "</suggestions>".data

/-- Worker of `scanBlocks`; the fuel exceeds the input length, which bounds
the number of matches. -/
def scanBlocksGo : Nat → List Char → List (List Char) × List Char
  | 0, s => ([], s)
  | fuel + 1, s =>
    match splitOnFirst openTag s with
    | none => ([], s)
    | some (pre, rest) =>
      match splitOnFirst closeTag rest with
      | none => ([], s)
      | some (content, rest2) =>
        let r := scanBlocksGo fuel rest2
        (content :: r.1, pre ++ r.2)

/-- One pass of the lazy-regex scan: the list of captured block payloads
(`findall`) paired with the text that survives deletion of the matched spans
(`sub` with the empty replacement). -/
def scanBlocks (s : List Char) : List (List Char) × List Char :=
  scanBlocksGo (s.length + 1) s

/-- JSON values as produced by `json.loads`. -/
inductive JVal where
  | null
  | bool (b : Bool)
  | num (q : ℚ)
  | str (s : String)
  | arr (items : List JVal)
  | obj (fields : List (String × JVal))
deriving Inhabited

/-- Python truthiness of a JSON value. -/
def truthy : JVal → Bool
  | .null => false
  | .bool b => b
  | .num q => q ≠ 0
  | .str s => s ≠ ""
  | .arr l => !l.isEmpty
  | .obj l => !l.isEmpty

/-- `dict.get` on a parsed JSON object (duplicate keys: last one wins, as in
a Python dict built by `json.loads`). -/
def objGet (fields : List (String × JVal)) (k : String) : Option JVal :=
  (fields.reverse.find? fun p => p.1 = k).map fun p => p.2

/-- Whitespace accepted between JSON tokens (`json.loads`). -/
def isJsonWs (c : Char) : Bool :=
  c = ' ' || c = '\t' || c = '\n' || c = '\r'

/-- Skip inter-token whitespace. -/
def skipWs (cs : List Char) : List Char :=
  cs.dropWhile isJsonWs

/-- Hexadecimal digit value for `\uXXXX` escapes. -/
def hexVal (c : Char) : Option Nat :=
  let n := c.toNat
  if 48 ≤ n ∧ n ≤ 57 then some (n - 48)
  else if 97 ≤ n ∧ n ≤ 102 then some (n - 87)
  else if 65 ≤ n ∧ n ≤ 70 then some (n - 55)
  else none

/-- Body of a JSON string literal (opening quote already consumed): standard
escapes, unescaped control characters rejected.  Astral `\u` surrogate pairs
are modelled as two code points. -/
def parseJStringGo : Nat → List Char → List Char → Option (String × List Char)
  | 0, _, _ => none
  | fuel + 1, acc, cs =>
    match cs with
    | [] => none
    | '"' :: r => some (String.mk acc.reverse, r)
    | '\\' :: e :: r =>
      match e with
      | '"' => parseJStringGo fuel ('"' :: acc) r
      | '\\' => parseJStringGo fuel ('\\' :: acc) r
      | '/' => parseJStringGo fuel ('/' :: acc) r
      | 'b' => parseJStringGo fuel ('\x08' :: acc) r
      | 'f' => parseJStringGo fuel ('\x0c' :: acc) r
      | 'n' => parseJStringGo fuel ('\n' :: acc) r
      | 'r' => parseJStringGo fuel ('\r' :: acc) r
      | 't' => parseJStringGo fuel ('\t' :: acc) r
      | 'u' =>
        match r with
        | h1 :: h2 :: h3 :: h4 :: r2 =>
          match hexVal h1, hexVal h2, hexVal h3, hexVal h4 with
          | some a, some b, some c, some d =>
            parseJStringGo fuel (Char.ofNat (((a * 16 + b) * 16 + c) * 16 + d) :: acc) r2
          | _, _, _, _ => none
        | _ => none
      | _ => none
    | c :: r => if c.toNat < 32 then none else parseJStringGo fuel (c :: acc) r

/-- A JSON string literal starting after the opening quote. -/
def parseJString (cs : List Char) : Option (String × List Char) :=
  parseJStringGo (cs.length + 1) [] cs

/-- Digits prefix of `cs`. -/
def takeDigits (cs : List Char) : List Char × List Char :=
  (cs.takeWhile Char.isDigit, cs.dropWhile Char.isDigit)

/-- Numeric value of a digit list. -/
def digitsToNat (ds : List Char) : Nat :=
  ds.foldl (fun n c => n * 10 + (c.toNat - '0'.toNat)) 0

/-- A JSON number literal (strict grammar: no leading zeros, mandatory digits
around `.` and after the exponent). -/
def parseNumber (cs : List Char) : Option (ℚ × List Char) :=
  let signed := cs.head? = some '-'
  let cs1 := if signed then cs.drop 1 else cs
  let ip := takeDigits cs1
  if ip.1 = [] then none
  else if ip.1.head? = some '0' && ip.1.length ≠ 1 then none
  else
    let intVal : ℚ := (digitsToNat ip.1 : ℚ)
    let afterFrac : Option (ℚ × List Char) :=
      match ip.2 with
      | '.' :: r =>
        let fp := takeDigits r
        if fp.1 = [] then none
        else some (intVal + (digitsToNat fp.1 : ℚ) / ((10 : ℚ) ^ fp.1.length), fp.2)
      | r => some (intVal, r)
    match afterFrac with
    | none => none
    | some (v, r1) =>
      let afterExp : Option (ℚ × List Char) :=
        match r1 with
        | 'e' :: r2 | 'E' :: r2 =>
          let esign :=
            match r2.head? with
            | some '+' => (false, r2.drop 1)
            | some '-' => (true, r2.drop 1)
            | _ => (false, r2)
          let ep := takeDigits esign.2
          if ep.1 = [] then none
          else
            let e := digitsToNat ep.1
            some ((if esign.1 then v / ((10 : ℚ) ^ e) else v * ((10 : ℚ) ^ e)), ep.2)
        | r2 => some (v, r2)
      match afterExp with
      | none => none
      | some (v2, r3) => some ((if signed then -v2 else v2), r3)

mutual

/-- A JSON value (model of the recursive descent in `json.loads`); the fuel
bounds the number of nested values and is chosen generously by `jsonLoads`. -/
def parseVal : Nat → List Char → Option (JVal × List Char)
  | 0, _ => none
  | fuel + 1, cs0 =>
    let cs := skipWs cs0
    match cs with
    | [] => none
    | c :: rest =>
      if "null".data.isPrefixOf cs then some (.null, cs.drop 4)
      else if "true".data.isPrefixOf cs then some (.bool true, cs.drop 4)
      else if "false".data.isPrefixOf cs then some (.bool false, cs.drop 5)
      else if c = '"' then (parseJString rest).map fun p => (.str p.1, p.2)
      else if c = '[' then
        match skipWs rest with
        | ']' :: r2 => some (.arr [], r2)
        | r1 => (parseArrItems fuel r1).map fun p => (.arr p.1, p.2)
      else if c = '{' then
        match skipWs rest with
        | '}' :: r2 => some (.obj [], r2)
        | r1 => (parseObjItems fuel r1).map fun p => (.obj p.1, p.2)
      else (parseNumber cs).map fun p => (.num p.1, p.2)

/-- Comma-separated array elements up to the closing bracket. -/
def parseArrItems : Nat → List Char → Option (List JVal × List Char)
  | 0, _ => none
  | fuel + 1, cs =>
    match parseVal fuel cs with
    | none => none
    | some (v, r) =>
      match skipWs r with
      | ',' :: r2 => (parseArrItems fuel r2).map fun p => (v :: p.1, p.2)
      | ']' :: r2 => some ([v], r2)
      | _ => none

/-- Comma-separated `"key": value` members up to the closing brace. -/
def parseObjItems : Nat → List Char → Option (List (String × JVal) × List Char)
  | 0, _ => none
  | fuel + 1, cs =>
    match skipWs cs with
    | '"' :: r =>
      match parseJString r with
      | none => none
      | some (k, r2) =>
        match skipWs r2 with
        | ':' :: r3 =>
          match parseVal fuel r3 with
          | none => none
          | some (v, r4) =>
            match skipWs r4 with
            | ',' :: r5 => (parseObjItems fuel r5).map fun p => ((k, v) :: p.1, p.2)
            | '}' :: r5 => some ([(k, v)], r5)
            | _ => none
        | _ => none
    | _ => none

end

/-- Model of `json.loads`: parse one value and require only trailing
whitespace after it. -/
def jsonLoads (raw : String) : Option JVal :=
  match parseVal (raw.length + 2) raw.data with
  | some (v, r) => if skipWs r = [] then some v else none
  | none => none

/-- A `{label, prompt}` quick-reply pair. -/
structure Suggestion where
  label : String
  prompt : String
deriving DecidableEq, Repr

/-- Python `a or b or ... or ""` over optional JSON values: the first truthy
value, else the empty string. -/
def pickTruthy : List (Option JVal) → JVal
  | [] => .str ""
  | none :: rest => pickTruthy rest
  | some v :: rest => if truthy v then v else pickTruthy rest

/-- `.strip()` on the picked value: defined only on strings — a truthy
non-string here is the `AttributeError` path. -/
def asStripped : JVal → Option String
  | .str s => some (pyStrip s)
  | _ => none

/-- One iteration of the item loop (app.py 130-134): outer `none` is an
uncaught exception, inner `none` a pair skipped by the `if label and prompt`
filter. -/
def suggestionOfItem : JVal → Option (Option Suggestion)
  | .obj fields =>
    match asStripped (pickTruthy [objGet fields "label", objGet fields "title"]) with
    | none => none
    | some label =>
      match asStripped
          (pickTruthy [objGet fields "prompt", objGet fields "text", some (.str label)]) with
      | none => none
      | some prompt =>
        if label ≠ "" && prompt ≠ "" then some (some ⟨label, prompt⟩) else some none
  | _ => none

/-- `for item in payload.get("items", [])` over one parsed payload: collects
the surviving pairs; `none` is an uncaught exception (`payload` not a dict,
`items` not iterable, or an item without `.get`). -/
def itemsOfPayload : JVal → Option (List Suggestion)
  | .obj fields =>
    match objGet fields "items" with
    | none => some []
    | some (.arr items) => (items.mapM suggestionOfItem).map fun l => l.filterMap id
    | some (.str s) => if s = "" then some [] else none
    | some (.obj kvs) => if kvs.isEmpty then some [] else none
    | some _ => none
  | _ => none

/-- `_extract_suggestions` (app.py 120-137): every `<suggestions>...` block is
stripped from the message; each block's payload is parsed, a
`json.JSONDecodeError` skips the block, and the surviving `{label, prompt}`
pairs are collected in order.  `none` models an exception thrown past the
`except json.JSONDecodeError` handler. -/
def extractSuggestions (message : String) : Option (String × List Suggestion) :=
  if message = "" then some ("", [])
  else
    let sb := scanBlocks message.data
    match sb.1.mapM (fun b =>
      match jsonLoads (String.mk b) with
      | none => some []
      | some payload => itemsOfPayload payload) with
    | none => none
    | some itemLists => some (pyStrip (String.mk sb.2), itemLists.flatten)

/-- `renderSuggestions` in the embedded UI script (app.py 446-465): display
`items.slice(0, 3)` as chips, with label/prompt falling back to each other and
empty pairs dropped. -/
def renderSuggestions (items : List Suggestion) : List Suggestion :=
  (items.take 3).filterMap fun it =>
    let label := pyOr it.label it.prompt
    let prompt := pyOr it.prompt it.label
    if label ≠ "" && prompt ≠ "" then some ⟨label, prompt⟩ else none

/-! ## Shape lemmas: which session fields each operation can touch -/

theorem rememberHandledEmail_shape (s : Session) (m : String) :
    ∃ h, rememberHandledEmail s m = { s with handledEmailIds := h } := by
  unfold rememberHandledEmail
  split
  · exact ⟨_, rfl⟩
  · exact ⟨s.handledEmailIds, rfl⟩

theorem forgetHandledEmail_shape (s : Session) (m : String) :
    ∃ h a, forgetHandledEmail s m =
      { s with handledEmailIds := h, announcedUnreadIds := a } := by
  unfold forgetHandledEmail
  split
  · exact ⟨_, _, rfl⟩
  · exact ⟨s.handledEmailIds, s.announcedUnreadIds, rfl⟩

theorem gmailMarkAsRead_shape (s : Session) (mid : Option String) :
    ∃ h a, (gmailMarkAsRead s mid).1 =
      { s with handledEmailIds := h, announcedUnreadIds := a } := by
  unfold gmailMarkAsRead
  cases resolveTargetId mid s.currentEmailContext with
  | none => exact ⟨s.handledEmailIds, s.announcedUnreadIds, rfl⟩
  | some t =>
    by_cases ht : t = ""
    · exact ⟨s.handledEmailIds, s.announcedUnreadIds, by simp [ht]⟩
    · obtain ⟨h, hh⟩ := rememberHandledEmail_shape s t
      exact ⟨h, removeAll t s.announcedUnreadIds, by simp [ht, hh]⟩

theorem gmailMarkAsUnread_shape (s : Session) (mid : Option String) :
    ∃ h a, (gmailMarkAsUnread s mid).1 =
      { s with handledEmailIds := h, announcedUnreadIds := a } := by
  unfold gmailMarkAsUnread
  cases resolveTargetId mid s.currentEmailContext with
  | none => exact ⟨s.handledEmailIds, s.announcedUnreadIds, rfl⟩
  | some t =>
    by_cases ht : t = ""
    · exact ⟨s.handledEmailIds, s.announcedUnreadIds, by simp [ht]⟩
    · obtain ⟨h, a, hh⟩ := forgetHandledEmail_shape s t
      exact ⟨h, removeAll t a, by simp [ht, hh]⟩

theorem outlookMarkAsRead_shape (s : Session) (mid : Option String) :
    ∃ h a, (outlookMarkAsRead s mid).1 =
      { s with handledEmailIds := h, announcedUnreadIds := a } := by
  unfold outlookMarkAsRead
  cases resolveTargetId mid s.currentEmailContext with
  | none => exact ⟨s.handledEmailIds, s.announcedUnreadIds, rfl⟩
  | some t =>
    by_cases ht : t = ""
    · exact ⟨s.handledEmailIds, s.announcedUnreadIds, by simp [ht]⟩
    · obtain ⟨h, hh⟩ := rememberHandledEmail_shape s t
      exact ⟨h, removeAll t s.announcedUnreadIds, by simp [ht, hh]⟩

theorem outlookMarkAsUnread_shape (s : Session) (mid : Option String) :
    ∃ h a, (outlookMarkAsUnread s mid).1 =
      { s with handledEmailIds := h, announcedUnreadIds := a } := by
  unfold outlookMarkAsUnread
  cases resolveTargetId mid s.currentEmailContext with
  | none => exact ⟨s.handledEmailIds, s.announcedUnreadIds, rfl⟩
  | some t =>
    by_cases ht : t = ""
    · exact ⟨s.handledEmailIds, s.announcedUnreadIds, by simp [ht]⟩
    · obtain ⟨h, a, hh⟩ := forgetHandledEmail_shape s t
      exact ⟨h, removeAll t a, by simp [ht, hh]⟩

/-- `_merge_contact` touches only `recent_contacts`. -/
theorem mergeContact_shape (s : Session) (c : RawContact) :
    ∃ l, mergeContact s c = { s with recentContacts := l } := by
  unfold mergeContact
  dsimp only
  repeat' split
  all_goals exact ⟨_, rfl⟩

/-- `_ensure_account_identity` touches only `account_identity`. -/
theorem ensureAccountIdentity_shape (env : Env) (s : Session) :
    ∃ i, ensureAccountIdentity env s = { s with accountIdentity := i } := by
  unfold ensureAccountIdentity
  repeat' split
  all_goals exact ⟨_, rfl⟩

@[simp] theorem mergeContact_serviceType (s : Session) (c : RawContact) :
    (mergeContact s c).serviceType = s.serviceType := by
  obtain ⟨l, h⟩ := mergeContact_shape s c; rw [h]

@[simp] theorem mergeContact_lastDraftGoogle (s : Session) (c : RawContact) :
    (mergeContact s c).lastDraftGoogle = s.lastDraftGoogle := by
  obtain ⟨l, h⟩ := mergeContact_shape s c; rw [h]

@[simp] theorem mergeContact_lastDraftMicrosoftId (s : Session) (c : RawContact) :
    (mergeContact s c).lastDraftMicrosoftId = s.lastDraftMicrosoftId := by
  obtain ⟨l, h⟩ := mergeContact_shape s c; rw [h]

@[simp] theorem mergeContact_currentEmailContext (s : Session) (c : RawContact) :
    (mergeContact s c).currentEmailContext = s.currentEmailContext := by
  obtain ⟨l, h⟩ := mergeContact_shape s c; rw [h]

@[simp] theorem mergeContact_currentEventContext (s : Session) (c : RawContact) :
    (mergeContact s c).currentEventContext = s.currentEventContext := by
  obtain ⟨l, h⟩ := mergeContact_shape s c; rw [h]

@[simp] theorem mergeContact_accountIdentity (s : Session) (c : RawContact) :
    (mergeContact s c).accountIdentity = s.accountIdentity := by
  obtain ⟨l, h⟩ := mergeContact_shape s c; rw [h]

@[simp] theorem mergeContact_handledEmailIds (s : Session) (c : RawContact) :
    (mergeContact s c).handledEmailIds = s.handledEmailIds := by
  obtain ⟨l, h⟩ := mergeContact_shape s c; rw [h]

@[simp] theorem mergeContact_announcedUnreadIds (s : Session) (c : RawContact) :
    (mergeContact s c).announcedUnreadIds = s.announcedUnreadIds := by
  obtain ⟨l, h⟩ := mergeContact_shape s c; rw [h]

@[simp] theorem ensureAccountIdentity_serviceType (env : Env) (s : Session) :
    (ensureAccountIdentity env s).serviceType = s.serviceType := by
  obtain ⟨i, h⟩ := ensureAccountIdentity_shape env s; rw [h]

@[simp] theorem ensureAccountIdentity_lastDraftGoogle (env : Env) (s : Session) :
    (ensureAccountIdentity env s).lastDraftGoogle = s.lastDraftGoogle := by
  obtain ⟨i, h⟩ := ensureAccountIdentity_shape env s; rw [h]

@[simp] theorem ensureAccountIdentity_lastDraftMicrosoftId (env : Env) (s : Session) :
    (ensureAccountIdentity env s).lastDraftMicrosoftId = s.lastDraftMicrosoftId := by
  obtain ⟨i, h⟩ := ensureAccountIdentity_shape env s; rw [h]

@[simp] theorem ensureAccountIdentity_currentEmailContext (env : Env) (s : Session) :
    (ensureAccountIdentity env s).currentEmailContext = s.currentEmailContext := by
  obtain ⟨i, h⟩ := ensureAccountIdentity_shape env s; rw [h]

@[simp] theorem ensureAccountIdentity_currentEventContext (env : Env) (s : Session) :
    (ensureAccountIdentity env s).currentEventContext = s.currentEventContext := by
  obtain ⟨i, h⟩ := ensureAccountIdentity_shape env s; rw [h]

@[simp] theorem ensureAccountIdentity_recentContacts (env : Env) (s : Session) :
    (ensureAccountIdentity env s).recentContacts = s.recentContacts := by
  obtain ⟨i, h⟩ := ensureAccountIdentity_shape env s; rw [h]

@[simp] theorem ensureAccountIdentity_handledEmailIds (env : Env) (s : Session) :
    (ensureAccountIdentity env s).handledEmailIds = s.handledEmailIds := by
  obtain ⟨i, h⟩ := ensureAccountIdentity_shape env s; rw [h]

@[simp] theorem ensureAccountIdentity_announcedUnreadIds (env : Env) (s : Session) :
    (ensureAccountIdentity env s).announcedUnreadIds = s.announcedUnreadIds := by
  obtain ⟨i, h⟩ := ensureAccountIdentity_shape env s; rw [h]

@[simp] theorem gmailMarkAsRead_serviceType (s : Session) (mid : Option String) :
    ((gmailMarkAsRead s mid).1).serviceType = s.serviceType := by
  obtain ⟨h, a, hh⟩ := gmailMarkAsRead_shape s mid; rw [hh]

@[simp] theorem gmailMarkAsRead_lastDraftGoogle (s : Session) (mid : Option String) :
    ((gmailMarkAsRead s mid).1).lastDraftGoogle = s.lastDraftGoogle := by
  obtain ⟨h, a, hh⟩ := gmailMarkAsRead_shape s mid; rw [hh]

@[simp] theorem gmailMarkAsRead_lastDraftMicrosoftId (s : Session) (mid : Option String) :
    ((gmailMarkAsRead s mid).1).lastDraftMicrosoftId = s.lastDraftMicrosoftId := by
  obtain ⟨h, a, hh⟩ := gmailMarkAsRead_shape s mid; rw [hh]

@[simp] theorem gmailMarkAsRead_currentEmailContext (s : Session) (mid : Option String) :
    ((gmailMarkAsRead s mid).1).currentEmailContext = s.currentEmailContext := by
  obtain ⟨h, a, hh⟩ := gmailMarkAsRead_shape s mid; rw [hh]

@[simp] theorem gmailMarkAsRead_currentEventContext (s : Session) (mid : Option String) :
    ((gmailMarkAsRead s mid).1).currentEventContext = s.currentEventContext := by
  obtain ⟨h, a, hh⟩ := gmailMarkAsRead_shape s mid; rw [hh]

@[simp] theorem gmailMarkAsRead_recentContacts (s : Session) (mid : Option String) :
    ((gmailMarkAsRead s mid).1).recentContacts = s.recentContacts := by
  obtain ⟨h, a, hh⟩ := gmailMarkAsRead_shape s mid; rw [hh]

@[simp] theorem gmailMarkAsRead_accountIdentity (s : Session) (mid : Option String) :
    ((gmailMarkAsRead s mid).1).accountIdentity = s.accountIdentity := by
  obtain ⟨h, a, hh⟩ := gmailMarkAsRead_shape s mid; rw [hh]

@[simp] theorem gmailMarkAsUnread_serviceType (s : Session) (mid : Option String) :
    ((gmailMarkAsUnread s mid).1).serviceType = s.serviceType := by
  obtain ⟨h, a, hh⟩ := gmailMarkAsUnread_shape s mid; rw [hh]

@[simp] theorem gmailMarkAsUnread_lastDraftGoogle (s : Session) (mid : Option String) :
    ((gmailMarkAsUnread s mid).1).lastDraftGoogle = s.lastDraftGoogle := by
  obtain ⟨h, a, hh⟩ := gmailMarkAsUnread_shape s mid; rw [hh]

@[simp] theorem gmailMarkAsUnread_lastDraftMicrosoftId (s : Session) (mid : Option String) :
    ((gmailMarkAsUnread s mid).1).lastDraftMicrosoftId = s.lastDraftMicrosoftId := by
  obtain ⟨h, a, hh⟩ := gmailMarkAsUnread_shape s mid; rw [hh]

@[simp] theorem gmailMarkAsUnread_currentEmailContext (s : Session) (mid : Option String) :
    ((gmailMarkAsUnread s mid).1).currentEmailContext = s.currentEmailContext := by
  obtain ⟨h, a, hh⟩ := gmailMarkAsUnread_shape s mid; rw [hh]

@[simp] theorem gmailMarkAsUnread_currentEventContext (s : Session) (mid : Option String) :
    ((gmailMarkAsUnread s mid).1).currentEventContext = s.currentEventContext := by
  obtain ⟨h, a, hh⟩ := gmailMarkAsUnread_shape s mid; rw [hh]

@[simp] theorem gmailMarkAsUnread_recentContacts (s : Session) (mid : Option String) :
    ((gmailMarkAsUnread s mid).1).recentContacts = s.recentContacts := by
  obtain ⟨h, a, hh⟩ := gmailMarkAsUnread_shape s mid; rw [hh]

@[simp] theorem gmailMarkAsUnread_accountIdentity (s : Session) (mid : Option String) :
    ((gmailMarkAsUnread s mid).1).accountIdentity = s.accountIdentity := by
  obtain ⟨h, a, hh⟩ := gmailMarkAsUnread_shape s mid; rw [hh]

@[simp] theorem outlookMarkAsRead_serviceType (s : Session) (mid : Option String) :
    ((outlookMarkAsRead s mid).1).serviceType = s.serviceType := by
  obtain ⟨h, a, hh⟩ := outlookMarkAsRead_shape s mid; rw [hh]

@[simp] theorem outlookMarkAsRead_lastDraftGoogle (s : Session) (mid : Option String) :
    ((outlookMarkAsRead s mid).1).lastDraftGoogle = s.lastDraftGoogle := by
  obtain ⟨h, a, hh⟩ := outlookMarkAsRead_shape s mid; rw [hh]

@[simp] theorem outlookMarkAsRead_lastDraftMicrosoftId (s : Session) (mid : Option String) :
    ((outlookMarkAsRead s mid).1).lastDraftMicrosoftId = s.lastDraftMicrosoftId := by
  obtain ⟨h, a, hh⟩ := outlookMarkAsRead_shape s mid; rw [hh]

@[simp] theorem outlookMarkAsRead_currentEmailContext (s : Session) (mid : Option String) :
    ((outlookMarkAsRead s mid).1).currentEmailContext = s.currentEmailContext := by
  obtain ⟨h, a, hh⟩ := outlookMarkAsRead_shape s mid; rw [hh]

@[simp] theorem outlookMarkAsRead_currentEventContext (s : Session) (mid : Option String) :
    ((outlookMarkAsRead s mid).1).currentEventContext = s.currentEventContext := by
  obtain ⟨h, a, hh⟩ := outlookMarkAsRead_shape s mid; rw [hh]

@[simp] theorem outlookMarkAsRead_recentContacts (s : Session) (mid : Option String) :
    ((outlookMarkAsRead s mid).1).recentContacts = s.recentContacts := by
  obtain ⟨h, a, hh⟩ := outlookMarkAsRead_shape s mid; rw [hh]

@[simp] theorem outlookMarkAsRead_accountIdentity (s : Session) (mid : Option String) :
    ((outlookMarkAsRead s mid).1).accountIdentity = s.accountIdentity := by
  obtain ⟨h, a, hh⟩ := outlookMarkAsRead_shape s mid; rw [hh]

@[simp] theorem outlookMarkAsUnread_serviceType (s : Session) (mid : Option String) :
    ((outlookMarkAsUnread s mid).1).serviceType = s.serviceType := by
  obtain ⟨h, a, hh⟩ := outlookMarkAsUnread_shape s mid; rw [hh]

@[simp] theorem outlookMarkAsUnread_lastDraftGoogle (s : Session) (mid : Option String) :
    ((outlookMarkAsUnread s mid).1).lastDraftGoogle = s.lastDraftGoogle := by
  obtain ⟨h, a, hh⟩ := outlookMarkAsUnread_shape s mid; rw [hh]

@[simp] theorem outlookMarkAsUnread_lastDraftMicrosoftId (s : Session) (mid : Option String) :
    ((outlookMarkAsUnread s mid).1).lastDraftMicrosoftId = s.lastDraftMicrosoftId := by
  obtain ⟨h, a, hh⟩ := outlookMarkAsUnread_shape s mid; rw [hh]

@[simp] theorem outlookMarkAsUnread_currentEmailContext (s : Session) (mid : Option String) :
    ((outlookMarkAsUnread s mid).1).currentEmailContext = s.currentEmailContext := by
  obtain ⟨h, a, hh⟩ := outlookMarkAsUnread_shape s mid; rw [hh]

@[simp] theorem outlookMarkAsUnread_currentEventContext (s : Session) (mid : Option String) :
    ((outlookMarkAsUnread s mid).1).currentEventContext = s.currentEventContext := by
  obtain ⟨h, a, hh⟩ := outlookMarkAsUnread_shape s mid; rw [hh]

@[simp] theorem outlookMarkAsUnread_recentContacts (s : Session) (mid : Option String) :
    ((outlookMarkAsUnread s mid).1).recentContacts = s.recentContacts := by
  obtain ⟨h, a, hh⟩ := outlookMarkAsUnread_shape s mid; rw [hh]

@[simp] theorem outlookMarkAsUnread_accountIdentity (s : Session) (mid : Option String) :
    ((outlookMarkAsUnread s mid).1).accountIdentity = s.accountIdentity := by
  obtain ⟨h, a, hh⟩ := outlookMarkAsUnread_shape s mid; rw [hh]

/-- The common tail of both loaders: the optional mark-as-read branch only
touches the dedup sets. -/
theorem markBranch_shape (b : Bool) (f : Session → Option String → Session × Option String)
    (hf : ∀ s mid, ∃ h a, (f s mid).1 = { s with handledEmailIds := h, announcedUnreadIds := a })
    (s3 : Session) (x : Option String) :
    ∃ h a, (if b then (f s3 x).1 else s3) =
      { s3 with handledEmailIds := h, announcedUnreadIds := a } := by
  cases b
  · exact ⟨s3.handledEmailIds, s3.announcedUnreadIds, rfl⟩
  · simpa using hf s3 x

/-- On a successful fetch, `_load_gmail_email_into_context` sets the email
focus to the built context — whose id is the requested one — clears the event
focus, and leaves the service type and both draft slots untouched. -/
theorem loadGmail_success_shape (env : Env) (s : Session) (mid : String)
    (mr : Bool) (s' : Session) (ctx : EmailContext) (body : String)
    (h : loadGmailEmailIntoContext env s mid mr = (s', some (ctx, body))) :
    s'.currentEmailContext = some ctx ∧ s'.currentEventContext = none ∧
    ctx.id = mid ∧ s'.serviceType = s.serviceType ∧
    s'.lastDraftGoogle = s.lastDraftGoogle ∧
    s'.lastDraftMicrosoftId = s.lastDraftMicrosoftId := by
  unfold loadGmailEmailIntoContext at h
  cases hf : fetchGmail env mid with
  | none => rw [hf] at h; simp at h
  | some m =>
    have hid : m.id = mid := by simpa using List.find?_some hf
    rw [hf] at h
    dsimp only at h
    rw [Prod.mk.injEq, Option.some.injEq, Prod.mk.injEq] at h
    obtain ⟨hs, hctx, hbody⟩ := h
    subst hs
    subst hctx
    constructor
    · split <;> simp
    refine ⟨?_, ?_, ?_, ?_, ?_⟩
    · split <;> simp
    · simp [gmailContextOfMsg, hid]
    · split <;> simp
    · split <;> simp
    · split <;> simp

/-- Outlook counterpart of `loadGmail_success_shape`. -/
theorem loadOutlook_success_shape (env : Env) (s : Session) (mid : String)
    (mr : Bool) (s' : Session) (ctx : EmailContext) (body : String)
    (h : loadOutlookEmailIntoContext env s mid mr = (s', some (ctx, body))) :
    s'.currentEmailContext = some ctx ∧ s'.currentEventContext = none ∧
    ctx.id = mid ∧ s'.serviceType = s.serviceType ∧
    s'.lastDraftGoogle = s.lastDraftGoogle ∧
    s'.lastDraftMicrosoftId = s.lastDraftMicrosoftId := by
  unfold loadOutlookEmailIntoContext at h
  cases hf : fetchOutlook env mid with
  | none => rw [hf] at h; simp at h
  | some m =>
    have hid : m.id = mid := by simpa using List.find?_some hf
    rw [hf] at h
    dsimp only at h
    rw [Prod.mk.injEq, Option.some.injEq, Prod.mk.injEq] at h
    obtain ⟨hs, hctx, hbody⟩ := h
    subst hs
    subst hctx
    constructor
    · split <;> simp
    refine ⟨?_, ?_, ?_, ?_, ?_⟩
    · split <;> simp
    · simp [outlookContextOfMsg, hid]
    · split <;> simp
    · split <;> simp
    · split <;> simp

@[simp] theorem loadGmail_fst_serviceType (env : Env) (s : Session) (x : String) (mr : Bool) :
    ((loadGmailEmailIntoContext env s x mr).1).serviceType = s.serviceType := by
  unfold loadGmailEmailIntoContext
  cases fetchGmail env x with
  | none => rfl
  | some m => dsimp only; split <;> simp

@[simp] theorem loadGmail_fst_lastDraftGoogle (env : Env) (s : Session) (x : String) (mr : Bool) :
    ((loadGmailEmailIntoContext env s x mr).1).lastDraftGoogle = s.lastDraftGoogle := by
  unfold loadGmailEmailIntoContext
  cases fetchGmail env x with
  | none => rfl
  | some m => dsimp only; split <;> simp

@[simp] theorem loadGmail_fst_lastDraftMicrosoftId (env : Env) (s : Session) (x : String) (mr : Bool) :
    ((loadGmailEmailIntoContext env s x mr).1).lastDraftMicrosoftId = s.lastDraftMicrosoftId := by
  unfold loadGmailEmailIntoContext
  cases fetchGmail env x with
  | none => rfl
  | some m => dsimp only; split <;> simp

@[simp] theorem loadOutlook_fst_serviceType (env : Env) (s : Session) (x : String) (mr : Bool) :
    ((loadOutlookEmailIntoContext env s x mr).1).serviceType = s.serviceType := by
  unfold loadOutlookEmailIntoContext
  cases fetchOutlook env x with
  | none => rfl
  | some m => dsimp only; split <;> simp

@[simp] theorem loadOutlook_fst_lastDraftGoogle (env : Env) (s : Session) (x : String) (mr : Bool) :
    ((loadOutlookEmailIntoContext env s x mr).1).lastDraftGoogle = s.lastDraftGoogle := by
  unfold loadOutlookEmailIntoContext
  cases fetchOutlook env x with
  | none => rfl
  | some m => dsimp only; split <;> simp

@[simp] theorem loadOutlook_fst_lastDraftMicrosoftId (env : Env) (s : Session) (x : String) (mr : Bool) :
    ((loadOutlookEmailIntoContext env s x mr).1).lastDraftMicrosoftId = s.lastDraftMicrosoftId := by
  unfold loadOutlookEmailIntoContext
  cases fetchOutlook env x with
  | none => rfl
  | some m => dsimp only; split <;> simp

@[simp] theorem ensureEmailContext_fst_serviceType (env : Env) (s : Session)
    (mid : Option String) (mr : Bool) :
    ((ensureEmailContext env s mid mr).1).serviceType = s.serviceType := by
  unfold ensureEmailContext
  dsimp only
  repeat' split
  all_goals simp

@[simp] theorem ensureEmailContext_fst_lastDraftGoogle (env : Env) (s : Session)
    (mid : Option String) (mr : Bool) :
    ((ensureEmailContext env s mid mr).1).lastDraftGoogle = s.lastDraftGoogle := by
  unfold ensureEmailContext
  dsimp only
  repeat' split
  all_goals simp

@[simp] theorem ensureEmailContext_fst_lastDraftMicrosoftId (env : Env) (s : Session)
    (mid : Option String) (mr : Bool) :
    ((ensureEmailContext env s mid mr).1).lastDraftMicrosoftId = s.lastDraftMicrosoftId := by
  unfold ensureEmailContext
  dsimp only
  repeat' split
  all_goals simp

/-! ## Claim theorems -/

/-- **C1**: for every session, after a successful read of an email with id `X`
through `_load_gmail_email_into_context` / `_load_outlook_email_into_context`,
the email FocusContext is set with id equal to `X` and the event context is
cleared — so the read leaves at most the email context set. -/
theorem spec_C1 :
    (∀ (env : Env) (s : Session) (x : String) (mr : Bool) (s' : Session)
        (ctx : EmailContext) (body : String),
        loadGmailEmailIntoContext env s x mr = (s', some (ctx, body)) →
        s'.currentEmailContext = some ctx ∧ ctx.id = x ∧
        s'.currentEventContext = none) ∧
    (∀ (env : Env) (s : Session) (x : String) (mr : Bool) (s' : Session)
        (ctx : EmailContext) (body : String),
        loadOutlookEmailIntoContext env s x mr = (s', some (ctx, body)) →
        s'.currentEmailContext = some ctx ∧ ctx.id = x ∧
        s'.currentEventContext = none) := by
  constructor
  · intro env s x mr s' ctx body h
    obtain ⟨h1, h2, h3, _⟩ := loadGmail_success_shape env s x mr s' ctx body h
    exact ⟨h1, h3, h2⟩
  · intro env s x mr s' ctx body h
    obtain ⟨h1, h2, h3, _⟩ := loadOutlook_success_shape env s x mr s' ctx body h
    exact ⟨h1, h3, h2⟩

/-- A Gmail message used by concrete witnesses. -/
def gmailMsgW : GmailMsg :=
  { id := "m1", threadId := "t1"
    headers := [("From", "Dana Smith <dana@x.com>"), ("Subject", "Lunch")]
    body := "See you soon", snippet := "" }

/-- An Outlook message used by concrete witnesses. -/
def outlookMsgW : OutlookMsg :=
  { id := "o1", subject := "Hello", fromName := "Bob", fromEmail := "bob@y.com"
    bodyPreview := "pv", body := "full body", toRecipients := []
    ccRecipients := [], replyTo := [], sentDateTime := ""
    receivedDateTime := "2024-01-01T00:00:00Z", internetMessageId := "im1"
    isRead := false }

/-- A deterministic external world used by concrete witnesses. -/
def envW : Env :=
  { gmailMessages := [gmailMsgW]
    gmailListIds := fun _ => ["m1"]
    gmailProfileEmail := "me@x.com"
    gmailSendOk := true
    outlookMessages := [outlookMsgW]
    outlookListMsgs := [outlookMsgW]
    accountIdentityResult := some { email := "me@x.com", displayName := "Me" }
    outlookCreateDraft := some (some "d1")
    outlookCreateReply := some { id := "r1", subject := "RE: Hello", toAddrs := ["bob@y.com"] }
    outlookDraftList := some []
    outlookSendOk := true }

set_option maxRecDepth 8000 in
/-- Witness for C1: reading message `m1` (Gmail) / `o1` (Outlook) in a fresh
session focuses that very message and leaves no event focus. -/
theorem spec_C1_witness :
    ((loadGmailEmailIntoContext envW (initialSession "google") "m1" true).1.currentEventContext
        = none) ∧
    ((loadGmailEmailIntoContext envW (initialSession "google") "m1" true).1.currentEmailContext.map
        (fun c => c.id) = some "m1") ∧
    ((loadOutlookEmailIntoContext envW (initialSession "microsoft") "o1" true).1.currentEventContext
        = none) ∧
    ((loadOutlookEmailIntoContext envW (initialSession "microsoft") "o1" true).1.currentEmailContext.map
        (fun c => c.id) = some "o1") := by
  have hsg : (loadGmailEmailIntoContext envW (initialSession "google") "m1" true).2.isSome
      = true := by decide
  have hso : (loadOutlookEmailIntoContext envW (initialSession "microsoft") "o1" true).2.isSome
      = true := by decide
  cases hres : loadGmailEmailIntoContext envW (initialSession "google") "m1" true with
  | mk s' r =>
    cases hres2 : loadOutlookEmailIntoContext envW (initialSession "microsoft") "o1" true with
    | mk t' q =>
      cases r with
      | none => rw [hres] at hsg; simp at hsg
      | some p =>
        obtain ⟨ctx, body⟩ := p
        obtain ⟨h1, h2, h3⟩ := spec_C1.1 envW (initialSession "google") "m1" true s' ctx body hres
        cases q with
        | none => rw [hres2] at hso; simp at hso
        | some p2 =>
          obtain ⟨ctx2, body2⟩ := p2
          obtain ⟨k1, k2, k3⟩ :=
            spec_C1.2 envW (initialSession "microsoft") "o1" true t' ctx2 body2 hres2
          simp [h1, h2, h3, k1, k2, k3]

/-- **C10** (implicit): `gmail_mark_as_read`, `gmail_mark_as_unread`,
`outlook_mark_as_read` and `outlook_mark_as_unread` never change the focus:
both `current_email_context` and `current_event_context` are exactly as
before the call, for every session state and (explicit or context-resolved)
message id. -/
theorem spec_C10 : ∀ (s : Session) (mid : Option String),
    (gmailMarkAsRead s mid).1.currentEmailContext = s.currentEmailContext ∧
    (gmailMarkAsRead s mid).1.currentEventContext = s.currentEventContext ∧
    (gmailMarkAsUnread s mid).1.currentEmailContext = s.currentEmailContext ∧
    (gmailMarkAsUnread s mid).1.currentEventContext = s.currentEventContext ∧
    (outlookMarkAsRead s mid).1.currentEmailContext = s.currentEmailContext ∧
    (outlookMarkAsRead s mid).1.currentEventContext = s.currentEventContext ∧
    (outlookMarkAsUnread s mid).1.currentEmailContext = s.currentEmailContext ∧
    (outlookMarkAsUnread s mid).1.currentEventContext = s.currentEventContext := by
  intro s mid
  exact ⟨by simp, by simp, by simp, by simp, by simp, by simp, by simp, by simp⟩

theorem mem_insertOnce_self (x : String) (l : List String) : x ∈ insertOnce x l := by
  by_cases h : x ∈ l <;> simp [insertOnce, h]

theorem insertOnce_idem (x : String) (l : List String) :
    insertOnce x (insertOnce x l) = insertOnce x l := by
  by_cases h : x ∈ l <;> simp [insertOnce, h]

theorem removeAll_idem (x : String) (l : List String) :
    removeAll x (removeAll x l) = removeAll x l := by
  simp [removeAll, List.filter_filter]

/-- **C8**: `markRead` is idempotent on session state — a second
`gmail_mark_as_read` / `outlook_mark_as_read` with the same argument returns
the identical session and reply, and an explicitly marked id is in the
HandledSet afterwards. -/
theorem spec_C8 :
    (∀ (s : Session) (mid : Option String),
      gmailMarkAsRead (gmailMarkAsRead s mid).1 mid = gmailMarkAsRead s mid) ∧
    (∀ (s : Session) (mid : Option String),
      outlookMarkAsRead (outlookMarkAsRead s mid).1 mid = outlookMarkAsRead s mid) ∧
    (∀ (s : Session) (x : String), x ≠ "" →
      x ∈ ((gmailMarkAsRead s (some x)).1).handledEmailIds) ∧
    (∀ (s : Session) (x : String), x ≠ "" →
      x ∈ ((outlookMarkAsRead s (some x)).1).handledEmailIds) := by
  refine ⟨?_, ?_, ?_, ?_⟩
  · intro s mid
    cases hr : resolveTargetId mid s.currentEmailContext with
    | none =>
      have h1 : gmailMarkAsRead s mid = (s, some "Error: No message ID.") := by
        unfold gmailMarkAsRead; rw [hr]
      rw [h1]; exact h1
    | some t =>
      by_cases ht : t = ""
      · have h1 : gmailMarkAsRead s mid = (s, some "Error: No message ID.") := by
          unfold gmailMarkAsRead; rw [hr]; simp [ht]
        rw [h1]; exact h1
      · have h1 : gmailMarkAsRead s mid =
            ({ s with handledEmailIds := insertOnce t s.handledEmailIds,
                      announcedUnreadIds := removeAll t s.announcedUnreadIds },
              some "Email marked as read.") := by
          unfold gmailMarkAsRead; rw [hr]; simp [ht, rememberHandledEmail]
        rw [h1]
        unfold gmailMarkAsRead
        have hr2 : resolveTargetId mid
            ({ s with handledEmailIds := insertOnce t s.handledEmailIds,
                      announcedUnreadIds := removeAll t s.announcedUnreadIds } :
              Session).currentEmailContext = some t := by simpa using hr
        rw [hr2]
        simp [ht, rememberHandledEmail, insertOnce_idem, removeAll_idem]
  · intro s mid
    cases hr : resolveTargetId mid s.currentEmailContext with
    | none =>
      have h1 : outlookMarkAsRead s mid = (s, some "Error: No message ID.") := by
        unfold outlookMarkAsRead; rw [hr]
      rw [h1]; exact h1
    | some t =>
      by_cases ht : t = ""
      · have h1 : outlookMarkAsRead s mid = (s, some "Error: No message ID.") := by
          unfold outlookMarkAsRead; rw [hr]; simp [ht]
        rw [h1]; exact h1
      · have h1 : outlookMarkAsRead s mid =
            ({ s with handledEmailIds := insertOnce t s.handledEmailIds,
                      announcedUnreadIds := removeAll t s.announcedUnreadIds },
              some "Email marked as read.") := by
          unfold outlookMarkAsRead; rw [hr]; simp [ht, rememberHandledEmail]
        rw [h1]
        unfold outlookMarkAsRead
        have hr2 : resolveTargetId mid
            ({ s with handledEmailIds := insertOnce t s.handledEmailIds,
                      announcedUnreadIds := removeAll t s.announcedUnreadIds } :
              Session).currentEmailContext = some t := by simpa using hr
        rw [hr2]
        simp [ht, rememberHandledEmail, insertOnce_idem, removeAll_idem]
  · intro s x hx
    have hr : resolveTargetId (some x) s.currentEmailContext = some x := by
      simp [resolveTargetId, strTruthy, hx]
    unfold gmailMarkAsRead
    rw [hr]
    simp [hx, rememberHandledEmail, mem_insertOnce_self]
  · intro s x hx
    have hr : resolveTargetId (some x) s.currentEmailContext = some x := by
      simp [resolveTargetId, strTruthy, hx]
    unfold outlookMarkAsRead
    rw [hr]
    simp [hx, rememberHandledEmail, mem_insertOnce_self]

/-- Witness for C8: marking `m9` as read in a fresh session twice (via the
idempotence equations at a concrete input) and `m9` lands in HandledSet. -/
theorem spec_C8_witness :
    gmailMarkAsRead (gmailMarkAsRead (initialSession "google") (some "m9")).1 (some "m9")
        = gmailMarkAsRead (initialSession "google") (some "m9") ∧
    "m9" ∈ ((gmailMarkAsRead (initialSession "google") (some "m9")).1).handledEmailIds ∧
    "m9" ∈ ((outlookMarkAsRead (initialSession "microsoft") (some "m9")).1).handledEmailIds :=
  ⟨spec_C8.1 (initialSession "google") (some "m9"),
   spec_C8.2.2.1 (initialSession "google") "m9" (by decide),
   spec_C8.2.2.2 (initialSession "microsoft") "m9" (by decide)⟩

/-- **C3 counterexample**: the claim says `cancel` with no pending draft fails
with a `NoDraft` error; in the code the cancel operation (`clear_draft`,
reached from the `cancel_draft` UI action) reports nothing and is a silent
no-op on a session without a pending draft — on the fresh session (which has
no draft in either slot) it returns the session unchanged instead of failing. -/
theorem spec_C3_counterexample :
    (initialSession "google").lastDraftGoogle = none ∧
    (initialSession "google").lastDraftMicrosoftId = none ∧
    clearDraft (initialSession "google") = initialSession "google" :=
  ⟨rfl, rfl, rfl⟩

/-- **C3 (amended)**: `send` with no pending draft fails with the
"No draft to send." error and changes no session state (both providers);
`cancel` (`clear_draft`) with no pending draft succeeds silently as a no-op
rather than failing with a NoDraft error. -/
theorem spec_C3 :
    (∀ (env : Env) (s : Session), s.lastDraftGoogle = none →
      gmailSendDraft env s = (s, some "Error: No draft to send.")) ∧
    (∀ (env : Env) (s : Session),
      s.lastDraftMicrosoftId = none ∨ s.lastDraftMicrosoftId = some "" →
      outlookSendDraft env s = (s, some "Error: No draft to send.")) ∧
    (∀ s : Session, s.lastDraftGoogle = none → s.lastDraftMicrosoftId = none →
      clearDraft s = s) := by
  refine ⟨?_, ?_, ?_⟩
  · intro env s h
    unfold gmailSendDraft
    rw [h]
  · intro env s h
    unfold outlookSendDraft
    rcases h with h | h <;> simp [h]
  · intro s h1 h2
    unfold clearDraft
    rw [← h1, ← h2]

/-- Witness for C3 (amended): the fresh session has no draft; `send` fails
with the "No draft to send." reply on both providers and `cancel` is the
identity. -/
theorem spec_C3_witness :
    gmailSendDraft envW (initialSession "google")
        = (initialSession "google", some "Error: No draft to send.") ∧
    outlookSendDraft envW (initialSession "microsoft")
        = (initialSession "microsoft", some "Error: No draft to send.") ∧
    clearDraft (initialSession "microsoft") = initialSession "microsoft" :=
  ⟨spec_C3.1 envW (initialSession "google") rfl,
   spec_C3.2.1 envW (initialSession "microsoft") (Or.inl rfl),
   spec_C3.2.2 (initialSession "microsoft") rfl rfl⟩

/-- The Gmail search loop never emits an item whose id is a (non-empty)
member of the handled set it started with. -/
theorem gmailSearchGo_excludes (env : Env) (publish : Bool) (maxr : Nat) :
    ∀ (ids : List String) (s : Session) (acc : List SearchItem) (s' : Session)
      (out : List SearchItem),
      gmailSearchGo env publish maxr ids s acc = (s', some out) →
      ∀ x, x ∈ s.handledEmailIds → x ≠ "" → (∀ it ∈ acc, it.id ≠ x) →
        ∀ it ∈ out, it.id ≠ x := by
  intro ids
  induction ids with
  | nil =>
    intro s acc s' out h x hmem hx hacc it hit
    rw [gmailSearchGo] at h
    rw [Prod.mk.injEq, Option.some.injEq] at h
    exact hacc it (h.2 ▸ hit)
  | cons listId rest ih =>
    intro s acc s' out h x hmem hx hacc
    rw [gmailSearchGo] at h
    by_cases hh : isHandledEmail s listId
    · rw [if_pos hh] at h
      exact ih s acc s' out h x hmem hx hacc
    · rw [if_neg hh] at h
      cases hf : fetchGmail env listId with
      | none => rw [hf] at h; simp at h
      | some m =>
        rw [hf] at h
        dsimp only at h
        have hxne : listId ≠ x := by
          intro he
          subst he
          exact hh (by simp [isHandledEmail, hx, hmem])
        have hacc' : ∀ it ∈ acc ++ [gmailItemOfMsg s.serviceType listId m],
            it.id ≠ x := by
          intro it hit
          rcases List.mem_append.mp hit with h1 | h1
          · exact hacc it h1
          · simp only [List.mem_singleton] at h1
            subst h1
            exact hxne
        split at h
        · rw [Prod.mk.injEq, Option.some.injEq] at h
          intro it hit
          exact hacc' it (h.2 ▸ hit)
        · intro it hit
          refine ih _ _ _ _ h x ?_ hx hacc' it hit
          rcases Bool.eq_false_or_eq_true publish with hb | hb <;>
            simp [hb, hmem]

/-- The Outlook search loop never emits an item whose id is a (non-empty)
member of the handled set it started with. -/
theorem outlookSearchGo_excludes (publish : Bool) (maxr : Nat) :
    ∀ (msgs : List OutlookMsg) (s : Session) (acc : List SearchItem)
      (s' : Session) (out : List SearchItem),
      outlookSearchGo publish maxr msgs s acc = (s', out) →
      ∀ x, x ∈ s.handledEmailIds → x ≠ "" → (∀ it ∈ acc, it.id ≠ x) →
        ∀ it ∈ out, it.id ≠ x := by
  intro msgs
  induction msgs with
  | nil =>
    intro s acc s' out h x hmem hx hacc it hit
    rw [outlookSearchGo] at h
    rw [Prod.mk.injEq] at h
    exact hacc it (h.2 ▸ hit)
  | cons m rest ih =>
    intro s acc s' out h x hmem hx hacc
    rw [outlookSearchGo] at h
    by_cases hr : m.isRead
    · rw [if_pos hr] at h
      exact ih s acc s' out h x hmem hx hacc
    · rw [if_neg hr] at h
      by_cases hh : isHandledEmail s m.id
      · rw [if_pos hh] at h
        exact ih s acc s' out h x hmem hx hacc
      · rw [if_neg hh] at h
        dsimp only at h
        have hxne : m.id ≠ x := by
          intro he
          subst he
          exact hh (by simp [isHandledEmail, hx, hmem])
        have hacc' : ∀ it ∈ acc ++ [outlookItemOfMsg s.serviceType m],
            it.id ≠ x := by
          intro it hit
          rcases List.mem_append.mp hit with h1 | h1
          · exact hacc it h1
          · simp only [List.mem_singleton] at h1
            subst h1
            exact hxne
        split at h
        · rw [Prod.mk.injEq] at h
          intro it hit
          exact hacc' it (h.2 ▸ hit)
        · intro it hit
          refine ih _ _ _ _ h x ?_ hx hacc' it hit
          rcases Bool.eq_false_or_eq_true publish with hb | hb <;>
            simp [hb, hmem]

/-- **C4**: a (non-empty) message id in HandledSet at call time never
appears in the result list of `gmail_search_emails` / `outlook_search_emails`. -/
theorem spec_C4 :
    (∀ (env : Env) (s : Session) (q : String) (n : Nat) (p : Bool)
        (s' : Session) (out : List SearchItem),
        gmailSearchEmails env s q n p = (s', some out) →
        ∀ x ∈ s.handledEmailIds, x ≠ "" → ∀ it ∈ out, it.id ≠ x) ∧
    (∀ (env : Env) (s : Session) (q : String) (n : Nat) (p : Bool)
        (s' : Session) (out : List SearchItem),
        outlookSearchEmails env s q n p = (s', out) →
        ∀ x ∈ s.handledEmailIds, x ≠ "" → ∀ it ∈ out, it.id ≠ x) := by
  constructor
  · intro env s q n p s' out h x hmem hx
    unfold gmailSearchEmails at h
    refine gmailSearchGo_excludes env p n _ _ [] s' out h x ?_ hx (by simp)
    rcases Bool.eq_false_or_eq_true p with hb | hb <;> simp [hb, hmem]
  · intro env s q n p s' out h x hmem hx
    unfold outlookSearchEmails at h
    refine outlookSearchGo_excludes p n _ _ [] s' out h x ?_ hx (by simp)
    rcases Bool.eq_false_or_eq_true p with hb | hb <;> simp [hb, hmem]

/-- A second Gmail message, already handled, for the C4 witness. -/
def gmailMsgH : GmailMsg :=
  { id := "h1", threadId := "t2"
    headers := [("From", "Spam <spam@z.com>"), ("Subject", "Old")]
    body := "old body", snippet := "" }

/-- An Outlook message with the handled id for the C4 witness. -/
def outlookMsgH : OutlookMsg :=
  { outlookMsgW with id := "h1", subject := "Old" }

/-- A session that has already handled message `h1`. -/
def sessionC4 (serviceType : String) : Session :=
  { initialSession serviceType with handledEmailIds := ["h1"] }

/-- An environment whose listings return the handled `h1` before the fresh
messages. -/
def envC4 : Env :=
  { envW with
      gmailMessages := [gmailMsgH, gmailMsgW]
      gmailListIds := fun _ => ["h1", "m1"]
      outlookListMsgs := [outlookMsgH, outlookMsgW] }

set_option maxRecDepth 8000 in
/-- Witness for C4: with `h1` handled, searching either provider returns only
the fresh message, whose id differs from `h1`. -/
theorem spec_C4_witness :
    "h1" ∈ (sessionC4 "google").handledEmailIds ∧
    (gmailItemOfMsg "google" "m1" gmailMsgW).id ≠ "h1" ∧
    (outlookItemOfMsg "microsoft" outlookMsgW).id ≠ "h1" := by
  have hg : gmailSearchEmails envC4 (sessionC4 "google") "lunch" 5 true =
      ((gmailSearchEmails envC4 (sessionC4 "google") "lunch" 5 true).1,
        some [gmailItemOfMsg "google" "m1" gmailMsgW]) := by decide
  have ho : outlookSearchEmails envC4 (sessionC4 "microsoft") "" 5 true =
      ((outlookSearchEmails envC4 (sessionC4 "microsoft") "" 5 true).1,
        [outlookItemOfMsg "microsoft" outlookMsgW]) := by decide
  refine ⟨by decide, ?_, ?_⟩
  · exact spec_C4.1 envC4 (sessionC4 "google") "lunch" 5 true _ _ hg "h1"
      (by decide) (by decide) _ (by simp)
  · exact spec_C4.2 envC4 (sessionC4 "microsoft") "" 5 true _ _ ho "h1"
      (by decide) (by decide) _ (by simp)

/-- `_ensure_email_context` with no explicit id fails without mutating the
session when there is no focused email and no recent contact of the session's
provider carrying an id. -/
theorem ensureEmailContext_no_candidate (env : Env) (s : Session) (mr : Bool)
    (hctx : s.currentEmailContext = none)
    (hc : ∀ c ∈ s.recentContacts, ¬(c.service = s.serviceType ∧ c.id ≠ "")) :
    ensureEmailContext env s none mr = (s, false) := by
  have hh1 : List.find? (fun c =>
      decide (c.service = s.serviceType) && !(decide (c.id = "")) &&
        !(isHandledEmail s c.id)) s.recentContacts = none := by
    rw [List.find?_eq_none]
    intro c hcm
    by_cases hs1 : c.service = s.serviceType
    · have hid : c.id = "" := by
        by_contra hne
        exact hc c hcm ⟨hs1, hne⟩
      simp [hid]
    · simp [hs1]
  have hh2 : List.find? (fun c =>
      decide (c.service = s.serviceType) && !(decide (c.id = ""))) s.recentContacts
      = none := by
    rw [List.find?_eq_none]
    intro c hcm
    by_cases hs1 : c.service = s.serviceType
    · have hid : c.id = "" := by
        by_contra hne
        exact hc c hcm ⟨hs1, hne⟩
      simp [hid]
    · simp [hs1]
  unfold ensureEmailContext
  rw [hctx]
  simp [strTruthy, hh1, hh2]

/-- **C5 (amended)**: `draftReply` fails with the no-context error and leaves
the session unchanged (no draft created, nothing else mutated) when there is
no email FocusContext **and no recent contact of the session's provider with
an id to fall back on**; with such a contact available, the code loads it and
creates the reply draft even though no `read` ever happened (see the
counterexample). -/
theorem spec_C5 : ∀ (env : Env) (s : Session) (body : String),
    s.currentEmailContext = none →
    (∀ c ∈ s.recentContacts, ¬(c.service = s.serviceType ∧ c.id ≠ "")) →
    gmailDraftReply env s body = (s, some "Error: No email context to reply to.") ∧
    outlookDraftReply env s body = (s, some "Error: No email context to reply to.") := by
  intro env s body hctx hc
  have he := ensureEmailContext_no_candidate env s true hctx hc
  constructor
  · unfold gmailDraftReply
    simp [he]
  · unfold outlookDraftReply
    simp [he]

/-- The recent contact a session can fall back on without any prior read. -/
def contactC5 : Contact :=
  { id := "m1", name := "dana smith", email := "dana@x.com"
    display := "Dana Smith <dana@x.com>", subject := "Lunch", preview := ""
    received := "", service := "google" }

/-- A session with no FocusContext but one recent contact (e.g. from a prior
search or the unread notifier). -/
def sessionC5 : Session :=
  { initialSession "google" with recentContacts := [contactC5] }

set_option maxRecDepth 8000 in
/-- **C5 counterexample**: in `sessionC5` no email FocusContext is set and no
read ever succeeded, yet `gmail_draft_reply` does *not* return the no-context
error: `_ensure_email_context` falls back to the recent contact `m1`, loads
it, and the call creates a reply draft. -/
theorem spec_C5_counterexample :
    sessionC5.currentEmailContext = none ∧
    (gmailDraftReply envW sessionC5 "I will be there at 3").2
        = some "Reply draft created." ∧
    ((gmailDraftReply envW sessionC5 "I will be there at 3").1.lastDraftGoogle).isSome
        = true := by
  refine ⟨rfl, by decide, by decide⟩

/-- Witness for C5 (amended): a fresh session has no focus and no contacts,
so `draftReply` fails with the no-context error on both providers and the
session is returned unchanged. -/
theorem spec_C5_witness :
    gmailDraftReply envW (initialSession "google") "hi"
        = (initialSession "google", some "Error: No email context to reply to.") ∧
    outlookDraftReply envW (initialSession "google") "hi"
        = (initialSession "google", some "Error: No email context to reply to.") :=
  spec_C5 envW (initialSession "google") "hi" rfl (by intro c hcm; simp [initialSession] at hcm)

/-! ## Draft lifecycle (C2): the only session fields the draft-creating calls
read are outside the draft slots, so a pending draft is silently replaced. -/

/-- Override both draft slots of a session. -/
def withDrafts (s : Session) (g : Option Draft) (m : Option String) : Session :=
  { s with lastDraftGoogle := g, lastDraftMicrosoftId := m }

@[simp] theorem withDrafts_currentEmailContext (s : Session) (g : Option Draft)
    (m : Option String) : (withDrafts s g m).currentEmailContext = s.currentEmailContext := rfl

@[simp] theorem withDrafts_serviceType (s : Session) (g : Option Draft)
    (m : Option String) : (withDrafts s g m).serviceType = s.serviceType := rfl

@[simp] theorem withDrafts_recentContacts (s : Session) (g : Option Draft)
    (m : Option String) : (withDrafts s g m).recentContacts = s.recentContacts := rfl

@[simp] theorem withDrafts_handledEmailIds (s : Session) (g : Option Draft)
    (m : Option String) : (withDrafts s g m).handledEmailIds = s.handledEmailIds := rfl

@[simp] theorem isHandledEmail_withDrafts (s : Session) (g : Option Draft)
    (m : Option String) (x : String) :
    isHandledEmail (withDrafts s g m) x = isHandledEmail s x := rfl

theorem setContexts_withDrafts (s : Session) (g : Option Draft) (m : Option String)
    (c1 : Option EmailContext) (c2 : Option EventContext) :
    ({ withDrafts s g m with currentEmailContext := c1, currentEventContext := c2}) =
      withDrafts { s with currentEmailContext := c1, currentEventContext := c2 } g m := rfl

theorem ite_withDrafts (c : Prop) [Decidable c] (a b : Session) (g : Option Draft)
    (m : Option String) :
    (if c then withDrafts a g m else withDrafts b g m) =
      withDrafts (if c then a else b) g m := by
  split <;> rfl

theorem rememberHandledEmail_withDrafts (s : Session) (g : Option Draft)
    (m : Option String) (x : String) :
    rememberHandledEmail (withDrafts s g m) x = withDrafts (rememberHandledEmail s x) g m := by
  unfold rememberHandledEmail withDrafts
  by_cases hx : x = "" <;> simp [hx]

theorem forgetHandledEmail_withDrafts (s : Session) (g : Option Draft)
    (m : Option String) (x : String) :
    forgetHandledEmail (withDrafts s g m) x = withDrafts (forgetHandledEmail s x) g m := by
  unfold forgetHandledEmail withDrafts
  by_cases hx : x = "" <;> simp [hx]

theorem gmailMarkAsRead_withDrafts (s : Session) (g : Option Draft)
    (m : Option String) (mid : Option String) :
    gmailMarkAsRead (withDrafts s g m) mid =
      (withDrafts (gmailMarkAsRead s mid).1 g m, (gmailMarkAsRead s mid).2) := by
  unfold gmailMarkAsRead
  rw [withDrafts_currentEmailContext]
  cases hr : resolveTargetId mid s.currentEmailContext with
  | none => rfl
  | some t =>
    by_cases ht : t = ""
    · simp [ht]
    · simp only [ht, if_neg (by simpa using ht)]
      rw [rememberHandledEmail_withDrafts]
      simp [withDrafts]

theorem outlookMarkAsRead_withDrafts (s : Session) (g : Option Draft)
    (m : Option String) (mid : Option String) :
    outlookMarkAsRead (withDrafts s g m) mid =
      (withDrafts (outlookMarkAsRead s mid).1 g m, (outlookMarkAsRead s mid).2) := by
  unfold outlookMarkAsRead
  rw [withDrafts_currentEmailContext]
  cases hr : resolveTargetId mid s.currentEmailContext with
  | none => rfl
  | some t =>
    by_cases ht : t = ""
    · simp [ht]
    · simp only [ht, if_neg (by simpa using ht)]
      rw [rememberHandledEmail_withDrafts]
      simp [withDrafts]

theorem mergeContact_withDrafts (s : Session) (g : Option Draft)
    (m : Option String) (c : RawContact) :
    mergeContact (withDrafts s g m) c = withDrafts (mergeContact s c) g m := by
  unfold mergeContact withDrafts
  dsimp only
  repeat' split
  all_goals rfl

theorem ensureAccountIdentity_withDrafts (env : Env) (s : Session) (g : Option Draft)
    (m : Option String) :
    ensureAccountIdentity env (withDrafts s g m) = withDrafts (ensureAccountIdentity env s) g m := by
  unfold ensureAccountIdentity withDrafts
  dsimp only
  repeat' split
  all_goals rfl

theorem loadGmail_withDrafts (env : Env) (s : Session) (g : Option Draft)
    (m : Option String) (x : String) (mr : Bool) :
    loadGmailEmailIntoContext env (withDrafts s g m) x mr =
      (withDrafts (loadGmailEmailIntoContext env s x mr).1 g m,
        (loadGmailEmailIntoContext env s x mr).2) := by
  unfold loadGmailEmailIntoContext
  cases hf : fetchGmail env x with
  | none => rfl
  | some msg =>
    dsimp only
    rw [setContexts_withDrafts, ensureAccountIdentity_withDrafts,
      withDrafts_serviceType, mergeContact_withDrafts, isHandledEmail_withDrafts,
      gmailMarkAsRead_withDrafts, ite_withDrafts]

theorem loadOutlook_withDrafts (env : Env) (s : Session) (g : Option Draft)
    (m : Option String) (x : String) (mr : Bool) :
    loadOutlookEmailIntoContext env (withDrafts s g m) x mr =
      (withDrafts (loadOutlookEmailIntoContext env s x mr).1 g m,
        (loadOutlookEmailIntoContext env s x mr).2) := by
  unfold loadOutlookEmailIntoContext
  cases hf : fetchOutlook env x with
  | none => rfl
  | some msg =>
    dsimp only
    rw [setContexts_withDrafts, ensureAccountIdentity_withDrafts,
      withDrafts_serviceType, mergeContact_withDrafts, isHandledEmail_withDrafts,
      outlookMarkAsRead_withDrafts, ite_withDrafts]

theorem ensureEmailContext_withDrafts (env : Env) (s : Session) (g : Option Draft)
    (m : Option String) (mid : Option String) (mr : Bool) :
    ensureEmailContext env (withDrafts s g m) mid mr =
      (withDrafts (ensureEmailContext env s mid mr).1 g m,
        (ensureEmailContext env s mid mr).2) := by
  unfold ensureEmailContext
  rw [withDrafts_currentEmailContext, withDrafts_serviceType,
    withDrafts_recentContacts]
  dsimp only
  split
  · cases hc : s.currentEmailContext with
    | none => rfl
    | some ctx =>
      dsimp only
      simp only [isHandledEmail_withDrafts]
      split
      · split
        · rw [gmailMarkAsRead_withDrafts]
        · rw [outlookMarkAsRead_withDrafts]
      · rfl
  · simp only [isHandledEmail_withDrafts]
    split
    · rfl
    · rename_i t heqt
      by_cases hsvc : s.serviceType = "google"
      · simp only [if_pos hsvc]
        rw [loadGmail_withDrafts]
        cases hl : (loadGmailEmailIntoContext env s t mr).2 <;> rfl
      · simp only [if_neg hsvc]
        rw [loadOutlook_withDrafts]
        cases hl : (loadOutlookEmailIntoContext env s t mr).2 <;> rfl

/-- The possible results of `gmail_draft_reply`. -/
theorem gmailDraftReply_results (env : Env) (s : Session) (body : String) :
    (gmailDraftReply env s body).2 = some "Error: No email context to reply to." ∨
    (gmailDraftReply env s body).2 = none ∨
    (gmailDraftReply env s body).2 = some "Reply draft created." := by
  unfold gmailDraftReply
  dsimp only
  repeat' split
  all_goals simp

/-- A successful `gmail_draft_reply` ignores the previously pending draft: the
call from a session with any other pending draft gives the identical result. -/
theorem gmailDraftReply_overwrite (env : Env) (s : Session) (body : String)
    (d₀ : Option Draft)
    (h : (gmailDraftReply env s body).2 = some "Reply draft created.") :
    gmailDraftReply env { s with lastDraftGoogle := d₀ } body =
      gmailDraftReply env s body := by
  have hw : ({ s with lastDraftGoogle := d₀ } : Session) =
      withDrafts s d₀ s.lastDraftMicrosoftId := rfl
  rw [hw]
  have hm : ((ensureEmailContext env s none true).1).lastDraftMicrosoftId
      = s.lastDraftMicrosoftId := by simp
  unfold gmailDraftReply at h ⊢
  rw [ensureEmailContext_withDrafts]
  cases her : ensureEmailContext env s none true with
  | mk s1 ok =>
    rw [her] at h hm
    cases ok with
    | false => simp at h
    | true =>
      dsimp only at h ⊢
      rw [withDrafts_currentEmailContext]
      cases hctx : s1.currentEmailContext with
      | none => simp [hctx] at h
      | some ctx =>
        dsimp only at hm ⊢
        simp [withDrafts, hm]

/-- The possible results of `outlook_draft_reply`. -/
theorem outlookDraftReply_results (env : Env) (s : Session) (body : String) :
    (outlookDraftReply env s body).2 = some "Error: No email context to reply to." ∨
    (outlookDraftReply env s body).2 = none ∨
    (outlookDraftReply env s body).2 = some "Error: Could not create a reply draft." ∨
    (outlookDraftReply env s body).2 = some "Reply draft created." := by
  unfold outlookDraftReply
  dsimp only
  repeat' split
  all_goals simp

/-- A successful `outlook_draft_reply` ignores the previously pending draft id. -/
theorem outlookDraftReply_overwrite (env : Env) (s : Session) (body : String)
    (m₀ : Option String)
    (h : (outlookDraftReply env s body).2 = some "Reply draft created.") :
    outlookDraftReply env { s with lastDraftMicrosoftId := m₀ } body =
      outlookDraftReply env s body := by
  have hw : ({ s with lastDraftMicrosoftId := m₀ } : Session) =
      withDrafts s s.lastDraftGoogle m₀ := rfl
  rw [hw]
  have hg : ((ensureEmailContext env s none true).1).lastDraftGoogle
      = s.lastDraftGoogle := by simp
  unfold outlookDraftReply at h ⊢
  rw [ensureEmailContext_withDrafts]
  cases her : ensureEmailContext env s none true with
  | mk s1 ok =>
    rw [her] at h hg
    cases ok with
    | false => simp at h
    | true =>
      dsimp only at h ⊢
      rw [withDrafts_currentEmailContext]
      cases hctx : s1.currentEmailContext with
      | none => simp [hctx] at h
      | some ctx =>
        dsimp only at hg ⊢
        cases hcr : env.outlookCreateReply with
        | none => simp [hctx, hcr] at h
        | some draft =>
          dsimp only at h ⊢
          repeat' split
          all_goals simp_all [withDrafts, hg]

/-- The draft-creating tool calls of the Google provider. -/
inductive GoogleDraftCall where
  | newEmail (toArg subject body : String)
  | reply (body : String)
deriving DecidableEq, Repr

/-- Dispatch of one Google draft-creating call. -/
def applyGoogleDraftCall (env : Env) (s : Session) :
    GoogleDraftCall → Session × Option String
  | .newEmail t su b => gmailDraftNewEmail s t su b
  | .reply b => gmailDraftReply env s b

/-- The body argument of a Google draft call. -/
def googleDraftCallBody : GoogleDraftCall → String
  | .newEmail _ _ b => b
  | .reply b => b

/-- A sequence of Google draft-creating calls, executed like the tool loop
(each result, error or not, feeds the next call the mutated session). -/
def applyGoogleDraftCalls (env : Env) (s : Session) : List GoogleDraftCall → Session
  | [] => s
  | c :: rest => applyGoogleDraftCalls env (applyGoogleDraftCall env s c).1 rest

/-- The draft-creating tool calls of the Microsoft provider. -/
inductive MicrosoftDraftCall where
  | newEmail (toArg subject body : String)
  | reply (body : String)
deriving DecidableEq, Repr

/-- Dispatch of one Microsoft draft-creating call. -/
def applyMicrosoftDraftCall (env : Env) (s : Session) :
    MicrosoftDraftCall → Session × Option String
  | .newEmail t su b => outlookDraftNewEmail env s t su b
  | .reply b => outlookDraftReply env s b

/-- A sequence of Microsoft draft-creating calls. -/
def applyMicrosoftDraftCalls (env : Env) (s : Session) :
    List MicrosoftDraftCall → Session
  | [] => s
  | c :: rest => applyMicrosoftDraftCalls env (applyMicrosoftDraftCall env s c).1 rest

/-- A draft-creating call reported success. -/
def draftCreated (r : Option String) : Prop :=
  r = some "Draft created. Ask user to confirm." ∨ r = some "Reply draft created."

/-- A selected reply-draft id is never the empty string (both selection
branches guard on truthiness). -/
theorem outlookSelectReplyDraftId_ne_empty (env : Env) (draft : OutlookDraftInfo)
    (i : String) (h : outlookSelectReplyDraftId env draft = some i) : i ≠ "" := by
  unfold outlookSelectReplyDraftId at h
  cases hsel0 : (if draft.id ≠ "" then some draft.id else none : Option String) with
  | some j =>
    try rw [hsel0] at h
    dsimp only at h
    injection h with hji
    subst hji
    by_cases hd : draft.id = ""
    · rw [if_neg (not_not_intro hd)] at hsel0
      exact absurd hsel0 (by simp)
    · rw [if_pos hd] at hsel0
      injection hsel0 with hs0
      rw [← hs0]
      exact hd
  | none =>
    try rw [hsel0] at h
    dsimp only at h
    cases hdl : env.outlookDraftList with
    | none => try rw [hdl] at h; exact absurd h (by simp)
    | some l =>
      try rw [hdl] at h
      dsimp only at h
      cases hf : l.find? (fun m =>
          pyStartsWith (pyLower m.subject) "re:" ||
          pyStartsWith (pyLower m.subject) "fw:") with
      | none => try rw [hf] at h; exact absurd h (by simp)
      | some m =>
        try rw [hf] at h
        dsimp only at h
        by_cases hm : m.id = ""
        · rw [if_neg (not_not_intro hm)] at h
          exact absurd h (by simp)
        · rw [if_pos hm] at h
          injection h with h
          rw [← h]
          exact hm

/-- **C2**: across any sequence of draft-creating calls with no intervening
send/cancel, the session holds at most one pending draft — the calls of one
provider never populate the other provider's slot — and the draft retained is
the one created by the most recent successful call: its content comes from
that call alone (body as passed; for Outlook the id the provider returned for
that call), and the result is entirely independent of whatever draft was
pending before (silent overwrite, no stacking). -/
theorem spec_C2 :
    (∀ (env : Env) (s : Session) (c : GoogleDraftCall),
      ((applyGoogleDraftCall env s c).1).lastDraftMicrosoftId = s.lastDraftMicrosoftId) ∧
    (∀ (env : Env) (s : Session) (ops : List GoogleDraftCall),
      (applyGoogleDraftCalls env s ops).lastDraftMicrosoftId = s.lastDraftMicrosoftId) ∧
    (∀ (env : Env) (s : Session) (ops : List GoogleDraftCall) (c : GoogleDraftCall),
      applyGoogleDraftCalls env s (ops ++ [c]) =
        (applyGoogleDraftCall env (applyGoogleDraftCalls env s ops) c).1) ∧
    (∀ (env : Env) (s : Session) (c : GoogleDraftCall),
      draftCreated (applyGoogleDraftCall env s c).2 →
      ∃ d, ((applyGoogleDraftCall env s c).1).lastDraftGoogle = some d ∧
        d.body = googleDraftCallBody c) ∧
    (∀ (env : Env) (s : Session) (c : GoogleDraftCall) (d₀ : Option Draft),
      draftCreated (applyGoogleDraftCall env s c).2 →
      applyGoogleDraftCall env { s with lastDraftGoogle := d₀ } c =
        applyGoogleDraftCall env s c) ∧
    (∀ (env : Env) (s : Session) (c : MicrosoftDraftCall),
      ((applyMicrosoftDraftCall env s c).1).lastDraftGoogle = s.lastDraftGoogle) ∧
    (∀ (env : Env) (s : Session) (ops : List MicrosoftDraftCall),
      (applyMicrosoftDraftCalls env s ops).lastDraftGoogle = s.lastDraftGoogle) ∧
    (∀ (env : Env) (s : Session) (ops : List MicrosoftDraftCall) (c : MicrosoftDraftCall),
      applyMicrosoftDraftCalls env s (ops ++ [c]) =
        (applyMicrosoftDraftCall env (applyMicrosoftDraftCalls env s ops) c).1) ∧
    (∀ (env : Env) (s : Session) (t su b : String),
      (outlookDraftNewEmail env s t su b).2 = some "Draft created. Ask user to confirm." →
      ∃ idOpt, env.outlookCreateDraft = some idOpt ∧
        ((outlookDraftNewEmail env s t su b).1).lastDraftMicrosoftId = idOpt) ∧
    (∀ (env : Env) (s : Session) (b : String),
      (outlookDraftReply env s b).2 = some "Reply draft created." →
      ∃ i, ((outlookDraftReply env s b).1).lastDraftMicrosoftId = some i ∧ i ≠ "") ∧
    (∀ (env : Env) (s : Session) (c : MicrosoftDraftCall) (m₀ : Option String),
      draftCreated (applyMicrosoftDraftCall env s c).2 →
      applyMicrosoftDraftCall env { s with lastDraftMicrosoftId := m₀ } c =
        applyMicrosoftDraftCall env s c) := by
  have hg1 : ∀ (env : Env) (s : Session) (c : GoogleDraftCall),
      ((applyGoogleDraftCall env s c).1).lastDraftMicrosoftId = s.lastDraftMicrosoftId := by
    intro env s c
    cases c with
    | newEmail t su b => rfl
    | reply b =>
      unfold applyGoogleDraftCall gmailDraftReply
      dsimp only
      repeat' split
      all_goals simp
  have hm1 : ∀ (env : Env) (s : Session) (c : MicrosoftDraftCall),
      ((applyMicrosoftDraftCall env s c).1).lastDraftGoogle = s.lastDraftGoogle := by
    intro env s c
    cases c with
    | newEmail t su b =>
      unfold applyMicrosoftDraftCall outlookDraftNewEmail
      dsimp only
      repeat' split
      all_goals simp
    | reply b =>
      unfold applyMicrosoftDraftCall outlookDraftReply
      dsimp only
      repeat' split
      all_goals simp
  refine ⟨hg1, ?_, ?_, ?_, ?_, hm1, ?_, ?_, ?_, ?_, ?_⟩
  · intro env s ops
    induction ops generalizing s with
    | nil => rfl
    | cons c rest ih =>
      rw [applyGoogleDraftCalls]
      rw [ih]
      exact hg1 env s c
  · intro env s ops c
    induction ops generalizing s with
    | nil => rfl
    | cons c0 rest ih =>
      rw [List.cons_append, applyGoogleDraftCalls, applyGoogleDraftCalls]
      exact ih _
  · intro env s c hsucc
    cases c with
    | newEmail t su b =>
      exact ⟨_, rfl, rfl⟩
    | reply b =>
      have hr : (gmailDraftReply env s b).2 = some "Reply draft created." := by
        rcases gmailDraftReply_results env s b with hr | hr | hr
        · exact absurd hsucc (by simp [applyGoogleDraftCall, draftCreated, hr])
        · exact absurd hsucc (by simp [applyGoogleDraftCall, draftCreated, hr])
        · exact hr
      show ∃ d, ((gmailDraftReply env s b).1).lastDraftGoogle = some d ∧
        d.body = googleDraftCallBody (.reply b)
      unfold gmailDraftReply at hr ⊢
      cases her : ensureEmailContext env s none true with
      | mk s1 ok =>
        try rw [her] at hr
        try rw [her]
        dsimp only at hr ⊢
        cases ok with
        | false => simp at hr
        | true =>
          cases hctx : s1.currentEmailContext with
          | none => simp [hctx] at hr
          | some ctx =>
            simp only [hctx]
            exact ⟨_, rfl, rfl⟩
  · intro env s c d₀ hsucc
    cases c with
    | newEmail t su b => rfl
    | reply b =>
      rcases gmailDraftReply_results env s b with hr | hr | hr
      · exact absurd hsucc (by simp [applyGoogleDraftCall, draftCreated, hr])
      · exact absurd hsucc (by simp [applyGoogleDraftCall, draftCreated, hr])
      · exact gmailDraftReply_overwrite env s b d₀ hr
  · intro env s ops
    induction ops generalizing s with
    | nil => rfl
    | cons c rest ih =>
      rw [applyMicrosoftDraftCalls]
      rw [ih]
      exact hm1 env s c
  · intro env s ops c
    induction ops generalizing s with
    | nil => rfl
    | cons c0 rest ih =>
      rw [List.cons_append, applyMicrosoftDraftCalls, applyMicrosoftDraftCalls]
      exact ih _
  · intro env s t su b hsucc
    unfold outlookDraftNewEmail at hsucc ⊢
    dsimp only at hsucc ⊢
    cases hcd : env.outlookCreateDraft with
    | none => simp [hcd] at hsucc
    | some idOpt => exact ⟨idOpt, rfl, rfl⟩
  · intro env s b hsucc
    unfold outlookDraftReply at hsucc ⊢
    cases her : ensureEmailContext env s none true with
    | mk s1 ok =>
      try rw [her] at hsucc
      try rw [her]
      dsimp only at hsucc ⊢
      cases ok with
      | false => simp at hsucc
      | true =>
        cases hctx : s1.currentEmailContext with
        | none => simp [hctx] at hsucc
        | some ctx =>
          simp only [hctx] at hsucc ⊢
          cases hcr : env.outlookCreateReply with
          | none => simp [hcr] at hsucc
          | some draft =>
            try simp only [hcr] at hsucc
            try simp only [hcr]
            cases hsel : outlookSelectReplyDraftId env draft with
            | none =>
              try rw [hsel] at hsucc
              simp at hsucc
            | some i =>
              try rw [hsel] at hsucc
              try rw [hsel]
              refine ⟨i, ?_, outlookSelectReplyDraftId_ne_empty env draft i hsel⟩
              simp
  · intro env s c m₀ hsucc
    cases c with
    | newEmail t su b =>
      unfold applyMicrosoftDraftCall outlookDraftNewEmail at hsucc ⊢
      dsimp only at hsucc ⊢
      cases hcd : env.outlookCreateDraft with
      | none => simp [draftCreated, hcd] at hsucc
      | some idOpt =>
        try rw [hcd]
        rfl
    | reply b =>
      rcases outlookDraftReply_results env s b with hr | hr | hr | hr
      · exact absurd hsucc (by simp [applyMicrosoftDraftCall, draftCreated, hr])
      · exact absurd hsucc (by simp [applyMicrosoftDraftCall, draftCreated, hr])
      · exact absurd hsucc (by simp [applyMicrosoftDraftCall, draftCreated, hr])
      · exact outlookDraftReply_overwrite env s b m₀ hr

instance (r : Option String) : Decidable (draftCreated r) := by
  unfold draftCreated
  infer_instance

/-- A focused Outlook email for the C2 witness session. -/
def ctxO : EmailContext :=
  { id := "o1", threadId := "", fromDisplay := "Bob <bob@y.com>", fromName := "Bob"
    fromEmail := "bob@y.com", subject := "Hello", messageIdHeader := ""
    references := "", replyToRecipients := [], replyToEmails := []
    toRecipients := [], ccRecipients := [], toLine := "", ccLine := ""
    date := "2024-01-01T00:00:00Z", replyToLine := "", internetMessageId := "im1"
    bodyPreview := "pv" }

/-- A Microsoft session with an email already in focus. -/
def sessionC2m : Session :=
  { initialSession "microsoft" with currentEmailContext := some ctxO }

set_option maxRecDepth 8000 in
/-- Witness for C2: concrete draft-creating calls — a new Gmail draft holds
the body just passed and is insensitive to a pre-existing pending draft, and
an Outlook reply retains the provider-issued (non-empty) draft id, likewise
insensitive to a stale pending id. -/
theorem spec_C2_witness :
    draftCreated (applyGoogleDraftCall envW (initialSession "google")
        (.newEmail "a@x.com" "Hi" "Body")).2 ∧
    (∃ d, ((applyGoogleDraftCall envW (initialSession "google")
        (.newEmail "a@x.com" "Hi" "Body")).1).lastDraftGoogle = some d ∧
        d.body = googleDraftCallBody (.newEmail "a@x.com" "Hi" "Body")) ∧
    applyGoogleDraftCall envW
        { initialSession "google" with
            lastDraftGoogle := some { toField := "old@x.com", subject := "Old", body := "old body" } }
        (.newEmail "a@x.com" "Hi" "Body")
      = applyGoogleDraftCall envW (initialSession "google") (.newEmail "a@x.com" "Hi" "Body") ∧
    (∃ i, ((outlookDraftReply envW sessionC2m "ok").1).lastDraftMicrosoftId = some i ∧ i ≠ "") ∧
    applyMicrosoftDraftCall envW { sessionC2m with lastDraftMicrosoftId := some "stale" }
        (.reply "ok")
      = applyMicrosoftDraftCall envW sessionC2m (.reply "ok") := by
  refine ⟨by decide, ?_, ?_, ?_, ?_⟩
  · exact spec_C2.2.2.2.1 envW (initialSession "google")
      (.newEmail "a@x.com" "Hi" "Body") (by decide)
  · exact spec_C2.2.2.2.2.1 envW (initialSession "google")
      (.newEmail "a@x.com" "Hi" "Body")
      (some { toField := "old@x.com", subject := "Old", body := "old body" }) (by decide)
  · exact spec_C2.2.2.2.2.2.2.2.2.2.1 envW sessionC2m "ok" (by decide)
  · exact spec_C2.2.2.2.2.2.2.2.2.2.2 envW sessionC2m (.reply "ok") (some "stale") (by decide)

/-! ## Contact aggregator (C6, C7) -/

/-- An entry's identity matches the account owner: by lowercased email when the
entry has one, else by lowercased display name — mirroring the comparisons of
`_merge_contact` (app.py 1057-1063). -/
def contactMatchesOwner (o : AccountIdentity) (c : Contact) : Bool :=
  if c.email ≠ "" then
    pyLower c.email = pyLower o.email && pyLower o.email ≠ ""
  else
    pyLower c.name = pyLower o.displayName && pyLower o.displayName ≠ ""

/-- The invariant C6 maintains for every stored contact: a non-empty name and
no match with the account owner's identity. -/
def contactOK (o : AccountIdentity) (c : Contact) : Prop :=
  c.name ≠ "" ∧ contactMatchesOwner o c = false

theorem pyOr_ne {b : String} (hb : b ≠ "") (a : String) : pyOr a b ≠ "" := by
  unfold pyOr
  split <;> simp_all

/-- The normalized contact always carries a non-empty name
(`name or display or "Unknown Sender"`, where `display` itself falls back to
`"Unknown Sender"`). -/
theorem normalizeContact_name_ne (st : String) (c : RawContact) :
    (normalizeContact st c).name ≠ "" :=
  pyOr_ne (pyOr_ne (by decide) _) _

/-- An updated entry with an email-keyed incoming contact stays clear of the
owner: its email becomes the incoming one, which the owner guard admitted. -/
theorem overwriteContact_ok_emailKey (o : AccountIdentity) (e n : Contact)
    (hne : n.email ≠ "") (hname : n.name ≠ "")
    (hmatch : ¬(pyLower n.email = pyLower o.email ∧ pyLower o.email ≠ "")) :
    contactOK o (overwriteContact e n) := by
  constructor
  · show pyOr n.name e.name ≠ ""
    unfold pyOr
    split <;> simp_all
  · unfold contactMatchesOwner overwriteContact
    dsimp only
    have he' : pyOr n.email e.email = n.email := by unfold pyOr; simp [hne]
    rw [he']
    rw [if_pos hne]
    by_cases h1 : pyLower n.email = pyLower o.email
    · by_cases h2 : pyLower o.email = ""
      · simp [h1, h2]
      · exact absurd ⟨h1, h2⟩ hmatch
    · simp [h1]

/-- An updated entry with a name-keyed incoming contact stays clear of the
owner: its email is unchanged (the incoming one is empty) and its new name has
the same lowercasing as the matched key, which the owner guard admitted. -/
theorem overwriteContact_ok_nameKey (o : AccountIdentity) (e n : Contact)
    (hne : n.email = "") (hname : n.name ≠ "")
    (hmatch : ¬(pyLower n.name = pyLower o.displayName ∧ pyLower o.displayName ≠ ""))
    (hok : contactOK o e) :
    contactOK o (overwriteContact e n) := by
  constructor
  · show pyOr n.name e.name ≠ ""
    unfold pyOr
    split <;> simp_all
  · have he' : pyOr n.email e.email = e.email := by unfold pyOr; simp [hne]
    have hn' : pyOr n.name e.name = n.name := by unfold pyOr; simp [hname]
    unfold contactMatchesOwner overwriteContact
    dsimp only
    rw [he', hn']
    by_cases hee : e.email = ""
    · rw [if_neg (by simp [hee])]
      by_cases h1 : pyLower n.name = pyLower o.displayName
      · by_cases h2 : pyLower o.displayName = ""
        · simp [h1, h2]
        · exact absurd ⟨h1, h2⟩ hmatch
      · simp [h1]
    · rw [if_pos hee]
      have := hok.2
      unfold contactMatchesOwner at this
      rw [if_pos hee] at this
      exact this

/-- The in-place merge loop keeps every entry clear of the owner when the
incoming observation passed the owner guards. -/
theorem mergeLoop_preserves (o : AccountIdentity) (ke kn : Option String) (n : Contact)
    (hupd : ∀ e, contactOK o e → contactKeyMatches ke kn e = true →
      contactOK o (overwriteContact e n)) :
    ∀ (l l' : List Contact), (∀ e ∈ l, contactOK o e) →
      mergeLoop ke kn n l = some l' → ∀ e ∈ l', contactOK o e := by
  intro l
  induction l with
  | nil => intro l' _ h; simp [mergeLoop] at h
  | cons e rest ih =>
    intro l' hl h
    rw [mergeLoop] at h
    by_cases hm : contactKeyMatches ke kn e = true
    · rw [if_pos hm] at h
      injection h with h
      subst h
      intro x hx
      rcases List.mem_cons.mp hx with hx | hx
      · subst hx
        exact hupd e (hl e (List.mem_cons_self e rest)) hm
      · exact hl x (List.mem_cons_of_mem e hx)
    · rw [if_neg hm] at h
      cases hrec : mergeLoop ke kn n rest with
      | none => rw [hrec] at h; simp at h
      | some rest' =>
        rw [hrec] at h
        injection h with h
        subst h
        intro x hx
        rcases List.mem_cons.mp hx with hx | hx
        · subst hx
          exact hl x (List.mem_cons_self x rest)
        · exact ih rest' (fun y hy => hl y (List.mem_cons_of_mem e hy)) hrec x hx

theorem mergeKeyEmail_of_empty {n : Contact} (h : n.email = "") :
    mergeKeyEmail n = none := by
  unfold mergeKeyEmail; simp [h]

theorem mergeKeyEmail_of_ne {n : Contact} (h : ¬ n.email = "") :
    mergeKeyEmail n = some (pyLower n.email) := by
  unfold mergeKeyEmail; simp [h]

theorem mergeKeyName_of_ne {n : Contact} (h : n.name ≠ "") :
    mergeKeyName n = some (pyLower n.name) := by
  unfold mergeKeyName; simp [h]

instance (o : AccountIdentity) (c : Contact) : Decidable (contactOK o c) := by
  unfold contactOK; infer_instance

/-- **C6**: `_merge_contact` preserves the contact-list invariant — no stored
entry ever matches the account owner's email (or, lacking an email, the
owner's name case-insensitively) — and the list stays within its capacity
bound of 15. -/
theorem spec_C6 : ∀ (s : Session) (c : RawContact),
    (∀ e ∈ s.recentContacts, contactOK s.accountIdentity e) →
    s.recentContacts.length ≤ 15 →
    (∀ e ∈ (mergeContact s c).recentContacts, contactOK s.accountIdentity e) ∧
    (mergeContact s c).recentContacts.length ≤ 15 := by
  intro s c hOK hlen
  have hname := normalizeContact_name_ne s.serviceType c
  unfold mergeContact
  dsimp only
  by_cases hne : (normalizeContact s.serviceType c).email = ""
  · -- the incoming observation is keyed by name: the email key is `None`
    rw [mergeKeyEmail_of_empty hne, mergeKeyName_of_ne hname]
    split
    · rename_i hfalse
      exact absurd hfalse (by simp [ownerGuardEmail])
    · split
      · exact ⟨hOK, hlen⟩
      · rename_i hg2
        have hmatch : ¬(pyLower (normalizeContact s.serviceType c).name =
            pyLower s.accountIdentity.displayName ∧
            pyLower s.accountIdentity.displayName ≠ "") := by
          intro hcon
          apply hg2
          simp [ownerGuardName, hcon.1, hcon.2]
        constructor
        · intro e he
          have he' := List.take_subset 15 _ he
          cases hml : mergeLoop (none : Option String)
              (some (pyLower (normalizeContact s.serviceType c).name))
              (normalizeContact s.serviceType c) s.recentContacts with
          | some l' =>
            rw [hml] at he'
            dsimp only at he'
            exact mergeLoop_preserves s.accountIdentity _ _ _
              (fun x hx _ => overwriteContact_ok_nameKey s.accountIdentity x _ hne hname
                hmatch hx)
              s.recentContacts l' hOK hml e he'
          | none =>
            rw [hml] at he'
            dsimp only at he'
            rcases List.mem_cons.mp he' with he2 | he2
            · subst he2
              refine ⟨hname, ?_⟩
              unfold contactMatchesOwner
              rw [if_neg (show ¬ (normalizeContact s.serviceType c).email ≠ "" from
                fun h => h hne)]
              by_cases h1 : pyLower (normalizeContact s.serviceType c).name =
                  pyLower s.accountIdentity.displayName
              · by_cases h2 : pyLower s.accountIdentity.displayName = ""
                · simp [h1, h2]
                · exact absurd ⟨h1, h2⟩ hmatch
              · simp [h1]
            · exact hOK e he2
        · rw [List.length_take]
          exact Nat.min_le_left _ _
  · -- the incoming observation is keyed by its lowercased email
    rw [mergeKeyEmail_of_ne hne, mergeKeyName_of_ne hname]
    split
    · exact ⟨hOK, hlen⟩
    · rename_i hg1
      split
      · exact ⟨hOK, hlen⟩
      · rename_i hg2
        have hmatch : ¬(pyLower (normalizeContact s.serviceType c).email =
            pyLower s.accountIdentity.email ∧
            pyLower s.accountIdentity.email ≠ "") := by
          intro hcon
          apply hg1
          simp [ownerGuardEmail, hcon.1, hcon.2]
        constructor
        · intro e he
          have he' := List.take_subset 15 _ he
          cases hml : mergeLoop (some (pyLower (normalizeContact s.serviceType c).email))
              (some (pyLower (normalizeContact s.serviceType c).name))
              (normalizeContact s.serviceType c) s.recentContacts with
          | some l' =>
            rw [hml] at he'
            dsimp only at he'
            exact mergeLoop_preserves s.accountIdentity _ _ _
              (fun x hx _ => overwriteContact_ok_emailKey s.accountIdentity x _ hne hname
                hmatch)
              s.recentContacts l' hOK hml e he'
          | none =>
            rw [hml] at he'
            dsimp only at he'
            rcases List.mem_cons.mp he' with he2 | he2
            · subst he2
              refine ⟨hname, ?_⟩
              unfold contactMatchesOwner
              rw [if_pos hne]
              by_cases h1 : pyLower (normalizeContact s.serviceType c).email =
                  pyLower s.accountIdentity.email
              · by_cases h2 : pyLower s.accountIdentity.email = ""
                · simp [h1, h2]
                · exact absurd ⟨h1, h2⟩ hmatch
              · simp [h1]
            · exact hOK e he2
        · rw [List.length_take]
          exact Nat.min_le_left _ _

/-- Witness for C6: merging a fresh observation into a session that already
holds one invariant-respecting contact keeps every entry clear of the owner
and the list within the bound. -/
theorem spec_C6_witness :
    (∀ e ∈ (mergeContact sessionC5 { emptyRaw with
        name := "Bob", email := "bob@y.com", subject := "Hello",
        service := "google" }).recentContacts, contactOK sessionC5.accountIdentity e) ∧
    (mergeContact sessionC5 { emptyRaw with
        name := "Bob", email := "bob@y.com", subject := "Hello",
        service := "google" }).recentContacts.length ≤ 15 :=
  spec_C6 sessionC5 _ (by decide) (by decide)

/-! ## C7: the upsert updates a matching entry in place (it does not move it
to the front); a new key is inserted at the front with eviction past 15 -/

/-- When no stored entry matches the incoming key, the in-place merge loop
reports no match. -/
theorem mergeLoop_eq_none (ke kn : Option String) (n : Contact) :
    ∀ l : List Contact, (∀ e ∈ l, contactKeyMatches ke kn e = false) →
      mergeLoop ke kn n l = none := by
  intro l
  induction l with
  | nil => intro _; rfl
  | cons e rest ih =>
    intro h
    rw [mergeLoop, if_neg (by simp [h e (List.mem_cons_self e rest)]),
        ih (fun y hy => h y (List.mem_cons_of_mem e hy))]
    rfl

/-- The in-place merge loop overwrites exactly the first matching entry and
leaves the list order unchanged. -/
theorem mergeLoop_first_match (ke kn : Option String) (n : Contact) :
    ∀ (l1 : List Contact) (e : Contact) (l2 : List Contact),
      (∀ x ∈ l1, contactKeyMatches ke kn x = false) →
      contactKeyMatches ke kn e = true →
      mergeLoop ke kn n (l1 ++ e :: l2) = some (l1 ++ overwriteContact e n :: l2) := by
  intro l1
  induction l1 with
  | nil =>
    intro e l2 _ hm
    rw [List.nil_append, List.nil_append, mergeLoop, if_pos hm]
  | cons x rest ih =>
    intro e l2 hpre hm
    rw [List.cons_append, List.cons_append, mergeLoop,
        if_neg (by simp [hpre x (List.mem_cons_self x rest)]),
        ih e l2 (fun y hy => hpre y (List.mem_cons_of_mem x hy)) hm]
    rfl

/-- The oldest stored contact (key `alice@x.com`). -/
def cA : Contact :=
  { id := "a1", name := "alice", email := "alice@x.com", display := "Alice"
    subject := "Old A", preview := "", received := "", service := "google" }

/-- A newer stored contact (key `bob@x.com`). -/
def cB : Contact :=
  { id := "b1", name := "bob", email := "bob@x.com", display := "Bob"
    subject := "Old B", preview := "", received := "", service := "google" }

/-- A session holding two contacts, most-recent-first: `[cA, cB]`. -/
def sessionC7 : Session :=
  { initialSession "google" with recentContacts := [cA, cB] }

/-- A fresh observation of `bob@x.com` with a new name and subject. -/
def rawC7 : RawContact :=
  { emptyRaw with
    name := "Bobby"
    email := "bob@x.com"
    subject := "New subject"
    service := "google" }

set_option maxRecDepth 4000 in
/-- **C7 counterexample**: the observation `rawC7` matches the stored entry
`cB`, yet after the merge the head of the list is still `cA`: the matched
record is updated in place at its old position, it is *not* moved to the
front as the claim asserts. -/
theorem spec_C7_counterexample :
    contactKeyMatches (mergeKeyEmail (normalizeContact sessionC7.serviceType rawC7))
      (mergeKeyName (normalizeContact sessionC7.serviceType rawC7)) cB = true ∧
    (mergeContact sessionC7 rawC7).recentContacts.head? = some cA ∧
    (mergeContact sessionC7 rawC7).recentContacts =
      [cA, overwriteContact cB (normalizeContact sessionC7.serviceType rawC7)] :=
  ⟨rfl, rfl, rfl⟩

/-- **C7** (amended): when the owner guards admit the observation, a matching
key overwrites the *first* matching entry in place — per-field last-write-wins
via `overwriteContact`, list order unchanged, no move to the front — and a new
key is inserted at the front with the `[:15]` cap evicting the oldest
entries. -/
theorem spec_C7 : ∀ (s : Session) (c : RawContact),
    ownerGuardEmail (pyLower s.accountIdentity.email)
      (mergeKeyEmail (normalizeContact s.serviceType c)) = false →
    ownerGuardName (pyLower s.accountIdentity.displayName)
      (mergeKeyEmail (normalizeContact s.serviceType c))
      (mergeKeyName (normalizeContact s.serviceType c)) = false →
    ((∀ e ∈ s.recentContacts,
        contactKeyMatches (mergeKeyEmail (normalizeContact s.serviceType c))
          (mergeKeyName (normalizeContact s.serviceType c)) e = false) →
      (mergeContact s c).recentContacts =
        (normalizeContact s.serviceType c :: s.recentContacts).take 15) ∧
    (∀ (l1 : List Contact) (e : Contact) (l2 : List Contact),
      s.recentContacts = l1 ++ e :: l2 →
      (∀ x ∈ l1, contactKeyMatches (mergeKeyEmail (normalizeContact s.serviceType c))
        (mergeKeyName (normalizeContact s.serviceType c)) x = false) →
      contactKeyMatches (mergeKeyEmail (normalizeContact s.serviceType c))
        (mergeKeyName (normalizeContact s.serviceType c)) e = true →
      (mergeContact s c).recentContacts =
        (l1 ++ overwriteContact e (normalizeContact s.serviceType c) :: l2).take 15) := by
  intro s c hg1 hg2
  unfold mergeContact
  dsimp only
  rw [if_neg (by simp [hg1]), if_neg (by simp [hg2])]
  constructor
  · intro hall
    rw [mergeLoop_eq_none _ _ _ s.recentContacts hall]
  · intro l1 e l2 hdec hpre hm
    rw [hdec, mergeLoop_first_match _ _ _ l1 e l2 hpre hm]

set_option maxRecDepth 4000 in
/-- Witness for C7: applied to `sessionC7` and the matching observation
`rawC7`, decomposing the stored list as `[cA] ++ cB :: []`. -/
theorem spec_C7_witness :
    sessionC7.recentContacts = [cA] ++ cB :: [] ∧
    (mergeContact sessionC7 rawC7).recentContacts =
      ([cA] ++ overwriteContact cB (normalizeContact sessionC7.serviceType rawC7)
        :: []).take 15 :=
  ⟨rfl, (spec_C7 sessionC7 rawC7 (by decide) (by decide)).2 [cA] cB []
    rfl (by decide) (by decide)⟩

/-! ## C9: the extractor strips blocks and degrades malformed payloads, but
the 3-item cap lives in the UI renderer, not in `_extract_suggestions` -/

/-- With no opening tag left, the scan finds nothing and keeps the text. -/
theorem scanBlocksGo_no_open (fuel : Nat) (s : List Char)
    (h : splitOnFirst openTag s = none) : scanBlocksGo fuel s = ([], s) := by
  cases fuel <;> simp [scanBlocksGo, h]

/-- The lazy scan on a message holding exactly one delimited block: the block
payload is captured and the surrounding text survives. -/
theorem scanBlocks_single (pre b post : List Char)
    (h1 : splitOnFirst openTag (pre ++ (openTag ++ (b ++ (closeTag ++ post)))) =
      some (pre, b ++ (closeTag ++ post)))
    (h2 : splitOnFirst closeTag (b ++ (closeTag ++ post)) = some (b, post))
    (h3 : splitOnFirst openTag post = none) :
    scanBlocks (pre ++ (openTag ++ (b ++ (closeTag ++ post)))) = ([b], pre ++ post) := by
  unfold scanBlocks
  rw [scanBlocksGo]
  rw [h1]
  dsimp only
  rw [h2]
  dsimp only
  rw [scanBlocksGo_no_open _ _ h3]

/-- A message whose single suggestion block carries four well-formed items. -/
def msgC9 : String :=
  "Pick one.<suggestions>\x7b\"items\": [\x7b\"label\": \"A\", \"prompt\": \"a\"\x7d, \x7b\"label\": \"B\", \"prompt\": \"b\"\x7d, \x7b\"label\": \"C\", \"prompt\": \"c\"\x7d, \x7b\"label\": \"D\", \"prompt\": \"d\"\x7d]\x7d</suggestions>"

/-- The four pairs carried by `msgC9`. -/
def suggC9 : List Suggestion :=
  [⟨"A", "a"⟩, ⟨"B", "b"⟩, ⟨"C", "c"⟩, ⟨"D", "d"⟩]

set_option maxRecDepth 8000 in
/-- **C9 counterexample**: `_extract_suggestions` itself imposes no cap — a
block with four items surfaces all four `\x7blabel, prompt\x7d` pairs, more than
the three the claim allows; the `slice(0, 3)` truncation happens only in the
UI renderer. -/
theorem spec_C9_counterexample :
    extractSuggestions msgC9 = some ("Pick one.", suggC9) ∧ 3 < suggC9.length :=
  ⟨by decide, by decide⟩

/-- `findall`/`sub`'s full lazy scan as a relation: `ScanSteps s blocks residue`
says the left-to-right scan of `s` captures exactly `blocks` (in order) and
deleting the matched spans leaves `residue`. -/
inductive ScanSteps : List Char → List (List Char) → List Char → Prop where
  | last {s : List Char} :
      splitOnFirst openTag s = none → ScanSteps s [] s
  | step {s pre rest b rest2 : List Char} {blocks : List (List Char)}
      {residue : List Char} :
      splitOnFirst openTag s = some (pre, rest) →
      splitOnFirst closeTag rest = some (b, rest2) →
      ScanSteps rest2 blocks residue →
      ScanSteps s (b :: blocks) (pre ++ residue)

/-- A scan never captures more blocks than the text has characters. -/
theorem scanSteps_length {s : List Char} {blocks : List (List Char)}
    {residue : List Char} (h : ScanSteps s blocks residue) :
    blocks.length ≤ s.length := by
  induction h with
  | last _ => simp
  | step h1 h2 _ ih =>
    have l1 := splitOnFirst_post_lt (by decide) h1
    have l2 := splitOnFirst_post_lt (by decide) h2
    simp only [List.length_cons]
    omega

/-- With enough fuel, the scan worker computes the relation's blocks and
residue. -/
theorem scanBlocksGo_of_scanSteps {s : List Char} {blocks : List (List Char)}
    {residue : List Char} (h : ScanSteps s blocks residue) :
    ∀ fuel : Nat, blocks.length ≤ fuel → scanBlocksGo fuel s = (blocks, residue) := by
  induction h with
  | last hs => intro fuel _; exact scanBlocksGo_no_open fuel _ hs
  | step h1 h2 _ ih =>
    intro fuel hf
    cases fuel with
    | zero => simp at hf
    | succ f =>
      rw [scanBlocksGo, h1]
      dsimp only
      rw [h2]
      dsimp only
      rw [ih f (Nat.le_of_succ_le_succ (by simpa using hf))]

/-- The one-pass scan agrees with the scan relation. -/
theorem scanBlocks_of_scanSteps {s : List Char} {blocks : List (List Char)}
    {residue : List Char} (h : ScanSteps s blocks residue) :
    scanBlocks s = (blocks, residue) :=
  scanBlocksGo_of_scanSteps h (s.length + 1)
    (Nat.le_trans (scanSteps_length h) (Nat.le_succ _))

/-- The empty text admits only the empty scan. -/
theorem scanSteps_nil {blocks : List (List Char)} {residue : List Char}
    (h : ScanSteps [] blocks residue) : blocks = [] ∧ residue = [] := by
  cases h with
  | last _ => exact ⟨rfl, rfl⟩
  | step h1 _ _ =>
    rw [show splitOnFirst openTag [] = none from rfl] at h1
    exact absurd h1 (by simp)

/-- When every block payload fails `json.loads`, every iteration of the block
loop is caught by the `except json.JSONDecodeError` handler and contributes an
empty item list. -/
theorem blocksMapM_all_malformed :
    ∀ blocks : List (List Char),
      (∀ b ∈ blocks, jsonLoads (String.mk b) = none) →
      (blocks.mapM fun b =>
        match jsonLoads (String.mk b) with
        | none => some ([] : List Suggestion)
        | some payload => itemsOfPayload payload) =
      some (blocks.map fun _ => []) := by
  intro blocks
  induction blocks with
  | nil => intro _; rfl
  | cons b rest ih =>
    intro h
    rw [List.mapM_cons]
    rw [h b (List.mem_cons_self b rest), ih (fun y hy => h y (List.mem_cons_of_mem b hy))]
    rfl

/-- Flattening per-block empty contributions yields no suggestions. -/
theorem flatten_map_nil : ∀ l : List (List Char),
    (l.map fun _ => ([] : List Suggestion)).flatten = [] := by
  intro l
  induction l with
  | nil => rfl
  | cons x xs ih => simp [ih]

/-- Let-free unfolding of `_extract_suggestions` on a non-empty message. -/
theorem extractSuggestions_eq (message : String) (hmsg : ¬ message = "") :
    extractSuggestions message =
      match (scanBlocks message.data).1.mapM (fun b =>
        match jsonLoads (String.mk b) with
        | none => some ([] : List Suggestion)
        | some payload => itemsOfPayload payload) with
      | none => none
      | some itemLists =>
        some (pyStrip (String.mk (scanBlocks message.data).2), itemLists.flatten) := by
  unfold extractSuggestions
  rw [if_neg hmsg]

/-- A message whose single block payload parses to a JSON array, not a dict. -/
def msgC9arr : String := "Hi<suggestions>[1]</suggestions>"

set_option maxRecDepth 4000 in
/-- **C9** (amended): for every message and the blocks its lazy scan captures —
any number of them — whenever `_extract_suggestions` returns, the visible text
is the input with every matched block span deleted (then stripped); if every
block payload fails `json.loads` the call succeeds with no suggestions (the
`JSONDecodeError` handler skips each block); but a payload that parses to a
non-dict raises past that handler and the turn fails; and the extractor caps
nothing — the at-most-3 bound belongs to the UI renderer
(`items.slice(0, 3)`). -/
theorem spec_C9 : ∀ (message : String) (blocks : List (List Char)) (residue : List Char),
    ScanSteps message.data blocks residue →
    (∀ r, extractSuggestions message = some r → r.1 = pyStrip (String.mk residue)) ∧
    ((∀ b ∈ blocks, jsonLoads (String.mk b) = none) →
      extractSuggestions message = some (pyStrip (String.mk residue), [])) ∧
    extractSuggestions msgC9arr = none ∧
    (∀ items : List Suggestion, (renderSuggestions items).length ≤ 3) := by
  intro message blocks residue hsteps
  refine ⟨?_, ?_, ?_, ?_⟩
  · intro r hr
    by_cases hmsg : message = ""
    · subst hmsg
      obtain ⟨hb, hres⟩ := scanSteps_nil hsteps
      subst hres
      rw [show extractSuggestions "" = some ("", ([] : List Suggestion)) from rfl] at hr
      injection hr with hr
      subst hr
      rfl
    · rw [extractSuggestions_eq message hmsg] at hr
      rw [scanBlocks_of_scanSteps hsteps] at hr
      split at hr
      · exact absurd hr (by simp)
      · injection hr with hr
        subst hr
        rfl
  · intro hall
    by_cases hmsg : message = ""
    · subst hmsg
      obtain ⟨hb, hres⟩ := scanSteps_nil hsteps
      subst hres
      rfl
    · rw [extractSuggestions_eq message hmsg, scanBlocks_of_scanSteps hsteps]
      dsimp only
      rw [blocksMapM_all_malformed blocks hall]
      dsimp only
      rw [flatten_map_nil]
  · rfl
  · intro items
    unfold renderSuggestions
    calc (List.filterMap _ (items.take 3)).length
        ≤ (items.take 3).length := List.length_filterMap_le _ _
      _ ≤ 3 := List.length_take_le _ _

set_option maxRecDepth 4000 in
/-- Witness for C9: a message with two blocks, both with unparseable payloads;
the extractor deletes both matched spans, returns the surviving text with no
suggestions and does not fail, and the renderer caps any item list at three. -/
theorem spec_C9_witness :
    extractSuggestions "A<suggestions>x</suggestions>B<suggestions>y</suggestions>C" =
      some ("ABC", []) ∧
    (∀ items : List Suggestion, (renderSuggestions items).length ≤ 3) := by
  have h1 : splitOnFirst openTag
      "A<suggestions>x</suggestions>B<suggestions>y</suggestions>C".data =
      some ("A".data, "x</suggestions>B<suggestions>y</suggestions>C".data) := by decide
  have h2 : splitOnFirst closeTag
      "x</suggestions>B<suggestions>y</suggestions>C".data =
      some ("x".data, "B<suggestions>y</suggestions>C".data) := by decide
  have h3 : splitOnFirst openTag "B<suggestions>y</suggestions>C".data =
      some ("B".data, "y</suggestions>C".data) := by decide
  have h4 : splitOnFirst closeTag "y</suggestions>C".data =
      some ("y".data, "C".data) := by decide
  have h5 : splitOnFirst openTag "C".data = none := by decide
  have hsteps : ScanSteps
      "A<suggestions>x</suggestions>B<suggestions>y</suggestions>C".data
      ["x".data, "y".data] ("A".data ++ ("B".data ++ "C".data)) :=
    ScanSteps.step h1 h2 (ScanSteps.step h3 h4 (ScanSteps.last h5))
  have h := spec_C9 "A<suggestions>x</suggestions>B<suggestions>y</suggestions>C"
    ["x".data, "y".data] ("A".data ++ ("B".data ++ "C".data)) hsteps
  have hmal : ∀ b ∈ (["x".data, "y".data] : List (List Char)),
      jsonLoads (String.mk b) = none := by
    intro b hb
    rcases List.mem_cons.mp hb with rfl | hb
    · rfl
    · rcases List.mem_cons.mp hb with rfl | hb
      · rfl
      · simp at hb
  exact ⟨(h.2.1 hmal).trans rfl, h.2.2.2⟩

end VoiceAssistant
